import Mathlib

/-!
# Engine/Graphics/Graphics.cpp: the double-buffered frame handoff

A shallow embedding of the file-scope state of `Graphics.cpp` and of the
functions `SubmitElapsedTime`, `SubmitBackBufferColor`,
`WaitUntilDataForANewFrameCanBeSubmitted`,
`SignalThatAllDataForAFrameHasBeenSubmitted`, `RenderFrame` and `Initialize`.

* A `float` is an element of an arbitrary type `F`: the code only stores and
  copies floats, it never computes with them.
* A pointer into the two-element array `s_dataRequiredToRenderAFrame` is an
  index `Fin 2`.
* The event primitive is declared outside `Graphics.cpp`. The functions are
  embedded over an arbitrary implementation of it (`cEventInterface`); the
  implementation the spec describes is `specified`.
* Calls that leave the translation unit (the view, the effects, the meshes,
  logging, the events) are recorded, in program order, in a list of `Call`s.
* A pointer to an effect or a mesh is null or the address of a created object.
  A call through a null pointer ends the run: it is recorded as such and
  nothing after it is.
* What the operating system answers to a call on an event is an extra
  argument of the embedded function.
-/

namespace eae6320

/-- Modelled from the spec: the class `cResult` (Engine/Results) is not part of
the sources at hand. The spec distinguishes success, a timed-out wait and an
error; the conversion to `bool` used by `if (result)` is `IsSuccess`. -/
inductive cResult where
  | Success
  | TimedOut
  | Failure (code : Nat)
  deriving DecidableEq

/-- The conversion `cResult::operator bool`. -/
def cResult.IsSuccess : cResult → Bool
  | .Success => true
  | .TimedOut => false
  | .Failure _ => false

namespace Concurrency

/-- The two reset policies of an event, with the enumerator names used in
`Graphics.cpp` (lines 197 and 202) and in section 4.1 of the spec. -/
inductive EventType where
  | ResetAutomaticallyAfterBeingSignaled
  | RemainSignaledUntilReset
  deriving DecidableEq

/-- The initial state of an event, a construction parameter (line 203). -/
inductive EventState where
  | Unsignaled
  | Signaled
  deriving DecidableEq

/-- Modelled from the spec: `Constants::DontTimeOut`, the default time to wait
of `WaitForEvent`, is declared outside the sources at hand; the spec only says
that the consumer waits with no timeout. It is taken to be the largest
`unsigned int`, so that every smaller argument is a bounded wait. -/
def Constants.DontTimeOut : Nat := 4294967295

/-- Modelled from the spec: the initial state used when `cEvent::Initialize` is
called with the type only (`SubmittedSignal` is "initially unsignaled"). -/
def defaultInitialState : EventState := EventState.Unsignaled

/-- The event primitive (Engine/Concurrency/cEvent.h) is declared outside the
sources at hand, so `Graphics.cpp` is embedded over an arbitrary
implementation of it: a type `E` of events and the three calls `Graphics.cpp`
makes on an event, each returning its result and the event after the call.
The last argument of a call is what the operating system answers to it; an
implementation is free in what it does with it. `WaitForEvent` is `none` when
the call does not return. -/
structure cEventInterface (E : Type) where
  Initialize : E → EventType → EventState → cResult → cResult × E
  Signal : E → cResult → cResult × E
  WaitForEvent : E → Nat → cResult → Option (cResult × E)

/-- Modelled from the spec: `cEvent` as section 4.1 describes the signal
primitive, a binary flag with a reset policy. -/
structure cEvent where
  type : EventType
  state : EventState
  deriving DecidableEq

/-- Modelled from the spec: `cEvent::Initialize`, construction of a signal with
a reset policy and an initial state. `os` is what the operating system answers;
when it is not a success the event is left as it was and the answer is
returned. -/
def cEvent.Initialize (e : cEvent) (i_type : EventType) (i_initialState : EventState)
    (os : cResult) : cResult × cEvent :=
  if os.IsSuccess then (os, { type := i_type, state := i_initialState }) else (os, e)

/-- Modelled from the spec: `cEvent::Signal`, the `raise()` of section 4.1. It
sets the flag, or returns a failure indicator when the operating system could
not signal (`os` is not a success); the flag is then left as it was. -/
def cEvent.Signal (e : cEvent) (os : cResult) : cResult × cEvent :=
  if os.IsSuccess then (cResult.Success, { e with state := EventState.Signaled }) else (os, e)

/-- Modelled from the spec: `Concurrency::WaitForEvent`, the `waitWithTimeout`
of section 4.1, run while no other thread raises the flag. The result is
signaled (`Success`; an automatically reset event is cleared by the successful
wait), timed out, or the error `os` answered by the operating system. `none`
means that the call does not return: the flag is down and the wait is
unbounded. -/
def WaitForEvent (i_event : cEvent) (i_timeToWait_inMilliseconds : Nat) (os : cResult) :
    Option (cResult × cEvent) :=
  if os.IsSuccess then
    match i_event.state with
    | EventState.Signaled =>
      match i_event.type with
      | EventType.ResetAutomaticallyAfterBeingSignaled =>
        some (cResult.Success, { i_event with state := EventState.Unsignaled })
      | EventType.RemainSignaledUntilReset => some (cResult.Success, i_event)
    | EventState.Unsignaled =>
      if i_timeToWait_inMilliseconds = Constants.DontTimeOut then none
      else some (cResult.TimedOut, i_event)
  else some (os, i_event)

/-- Modelled from the spec: the event primitive as section 4.1 describes it. -/
def specified : cEventInterface cEvent where
  Initialize := cEvent.Initialize
  Signal := cEvent.Signal
  WaitForEvent := WaitForEvent

end Concurrency

namespace Graphics

open Concurrency

/-- The members of `ConstantBufferFormats::sFrame` that `Graphics.cpp` accesses. -/
structure sFrame (F : Type) where
  g_elapsedSecondCount_systemTime : F
  g_elapsedSecondCount_simulationTime : F

/-- The type of `sDataRequiredToRenderAFrame::backBufferColor`. -/
structure sColor (F : Type) where
  R : F
  G : F
  B : F
  A : F

/-- The members of `sDataRequiredToRenderAFrame` that `Graphics.cpp` accesses. -/
structure sDataRequiredToRenderAFrame (F : Type) where
  constantData_frame : sFrame F
  backBufferColor : sColor F

/-- A `cMesh*` or a `cEffect*` as far as `Graphics.cpp` uses it: null, or the
address of an object that `CreateMesh` or `CreateEffect` has created. -/
inductive ePointer where
  | nullptr
  | created
  deriving DecidableEq

/-- The file-scope variables of `Graphics.cpp` that `RenderFrame` uses, lines
39-58. -/
structure sStatic (F E : Type) where
  s_dataRequiredToRenderAFrame : Fin 2 → sDataRequiredToRenderAFrame F
  s_dataBeingSubmittedByApplicationThread : Fin 2
  s_dataBeingRenderedByRenderThread : Fin 2
  s_whenAllDataHasBeenSubmittedFromApplicationThread : E
  s_whenDataForANewFrameCanBeSubmittedFromApplicationThread : E
  s_mesh_1 : ePointer
  s_mesh_2 : ePointer
  s_effect_1 : ePointer
  s_effect_2 : ePointer

/-- The two events of `Graphics.cpp`. -/
inductive eEvent where
  | s_whenAllDataHasBeenSubmittedFromApplicationThread
  | s_whenDataForANewFrameCanBeSubmittedFromApplicationThread
  deriving DecidableEq

/-- The two effects of `Graphics.cpp`. -/
inductive eEffect where
  | s_effect_1
  | s_effect_2
  deriving DecidableEq

/-- The two meshes of `Graphics.cpp`. -/
inductive eMesh where
  | s_mesh_1
  | s_mesh_2
  deriving DecidableEq

/-- What `RenderFrame` does besides returning, one constructor for each
statement with an effect. A call that takes a pointer to frame data is recorded
with the pointer and with the instance it points to at the time of the call.
`BindShadingData_nullptr` and `DrawGeometry_nullptr` are the calls of lines
141-150 made through a null pointer: no effect is bound, no mesh is drawn, and
the run ends there. -/
inductive Call (F : Type) where
  | WaitForEvent (event : eEvent) (result : cResult)
  | swap
  | Signal (event : eEvent) (result : cResult)
  | ClearImageBuffer (pointer : Fin 2) (data : sDataRequiredToRenderAFrame F)
  | ClearDepthBuffer
  | UpdateFrameConstantBuffer (pointer : Fin 2) (data : sDataRequiredToRenderAFrame F)
  | BindShadingData (effect : eEffect)
  | DrawGeometry (mesh : eMesh)
  | SwapFrontBuffer
  | ASSERTF
  | OutputError
  | Print
  | BindShadingData_nullptr (effect : eEffect)
  | DrawGeometry_nullptr (mesh : eMesh)

variable {F E : Type}

/-- `SubmitElapsedTime`, lines 67-73. The assertion of line 69 holds: the
pointer is an index into the array. -/
def SubmitElapsedTime (s : sStatic F E) (i_elapsedSecondCount_systemTime : F)
    (i_elapsedSecondCount_simulationTime : F) : sStatic F E :=
  let p := s.s_dataBeingSubmittedByApplicationThread
  let d := s.s_dataRequiredToRenderAFrame p
  { s with
    s_dataRequiredToRenderAFrame :=
      Function.update s.s_dataRequiredToRenderAFrame p
        { d with
          constantData_frame :=
            { d.constantData_frame with
              g_elapsedSecondCount_systemTime := i_elapsedSecondCount_systemTime
              g_elapsedSecondCount_simulationTime := i_elapsedSecondCount_simulationTime } } }

/-- `SubmitBackBufferColor`, lines 75-83. -/
def SubmitBackBufferColor (s : sStatic F E) (r g b a : F) : sStatic F E :=
  let p := s.s_dataBeingSubmittedByApplicationThread
  let d := s.s_dataRequiredToRenderAFrame p
  { s with
    s_dataRequiredToRenderAFrame :=
      Function.update s.s_dataRequiredToRenderAFrame p
        { d with backBufferColor := { d.backBufferColor with R := r, G := g, B := b, A := a } } }

/-- `WaitUntilDataForANewFrameCanBeSubmitted`, lines 85-88. -/
def WaitUntilDataForANewFrameCanBeSubmitted (ev : cEventInterface E) (s : sStatic F E)
    (i_timeToWait_inMilliseconds : Nat) (os : cResult) : Option (cResult × sStatic F E) :=
  match ev.WaitForEvent s.s_whenDataForANewFrameCanBeSubmittedFromApplicationThread
      i_timeToWait_inMilliseconds os with
  | none => none
  | some (result, event) =>
    some (result, { s with s_whenDataForANewFrameCanBeSubmittedFromApplicationThread := event })

/-- `SignalThatAllDataForAFrameHasBeenSubmitted`, lines 90-93. -/
def SignalThatAllDataForAFrameHasBeenSubmitted (ev : cEventInterface E) (s : sStatic F E)
    (os : cResult) : cResult × sStatic F E :=
  let signalled := ev.Signal s.s_whenAllDataHasBeenSubmittedFromApplicationThread os
  (signalled.1, { s with s_whenAllDataHasBeenSubmittedFromApplicationThread := signalled.2 })

/-- The statements of `RenderFrame` after the handoff, lines 127-155. The
effects and the meshes are reached through `s_effect_1`, `s_mesh_1`,
`s_effect_2` and `s_mesh_2` without a check (lines 141-150): the first of
these calls that goes through a null pointer is the last thing recorded.
Modelled from the spec: `cView`, `cEffect` and `cMesh` are not part of the
sources at hand; the consumer backend reads the frame data it is given and
does not write to it. -/
def renderPass (s : sStatic F E) : List (Call F) :=
  [ Call.ClearImageBuffer s.s_dataBeingRenderedByRenderThread
      (s.s_dataRequiredToRenderAFrame s.s_dataBeingRenderedByRenderThread),
    Call.ClearDepthBuffer,
    Call.UpdateFrameConstantBuffer s.s_dataBeingRenderedByRenderThread
      (s.s_dataRequiredToRenderAFrame s.s_dataBeingRenderedByRenderThread) ] ++
  match s.s_effect_1 with
  | ePointer.nullptr => [Call.BindShadingData_nullptr eEffect.s_effect_1]
  | ePointer.created =>
    Call.BindShadingData eEffect.s_effect_1 ::
    match s.s_mesh_1 with
    | ePointer.nullptr => [Call.DrawGeometry_nullptr eMesh.s_mesh_1]
    | ePointer.created =>
      Call.DrawGeometry eMesh.s_mesh_1 ::
      match s.s_effect_2 with
      | ePointer.nullptr => [Call.BindShadingData_nullptr eEffect.s_effect_2]
      | ePointer.created =>
        Call.BindShadingData eEffect.s_effect_2 ::
        match s.s_mesh_2 with
        | ePointer.nullptr => [Call.DrawGeometry_nullptr eMesh.s_mesh_2]
        | ePointer.created => [Call.DrawGeometry eMesh.s_mesh_2, Call.SwapFrontBuffer]

/-- `std::swap` of the two pointers, line 106. -/
def swapPointers (s : sStatic F E) : sStatic F E :=
  { s with
    s_dataBeingSubmittedByApplicationThread := s.s_dataBeingRenderedByRenderThread
    s_dataBeingRenderedByRenderThread := s.s_dataBeingSubmittedByApplicationThread }

/-- `RenderFrame`, lines 98-164. `osWait` and `osSignal` are what the operating
system answers to the wait of line 102 and to the signal of line 108. The
result is the state and the calls made, in order, when the function returns
or, when one of lines 141-150 goes through a null pointer, when the run ends
at that call; `none` means that the wait of line 102 does not return. -/
def RenderFrame (ev : cEventInterface E) (s : sStatic F E) (osWait osSignal : cResult) :
    Option (sStatic F E × List (Call F)) :=
  match ev.WaitForEvent s.s_whenAllDataHasBeenSubmittedFromApplicationThread
      Constants.DontTimeOut osWait with
  | none => none
  | some (waitResult, waitedEvent) =>
    let s1 := { s with s_whenAllDataHasBeenSubmittedFromApplicationThread := waitedEvent }
    let calls1 := [Call.WaitForEvent eEvent.s_whenAllDataHasBeenSubmittedFromApplicationThread
      waitResult]
    if waitResult.IsSuccess then
      let s2 := swapPointers s1
      let signalled :=
        ev.Signal s2.s_whenDataForANewFrameCanBeSubmittedFromApplicationThread osSignal
      let s3 := { s2 with s_whenDataForANewFrameCanBeSubmittedFromApplicationThread := signalled.2 }
      let calls3 := calls1 ++ [Call.swap,
        Call.Signal eEvent.s_whenDataForANewFrameCanBeSubmittedFromApplicationThread signalled.1]
      if !signalled.1.IsSuccess then
        some (s3, calls3 ++ [Call.ASSERTF, Call.OutputError, Call.Print])
      else
        some (s3, calls3 ++ renderPass s3)
    else
      some (s1, calls1 ++ [Call.ASSERTF, Call.OutputError, Call.Print])

/-- The calls of `RenderFrame` that go to the consumer backend (the view, the
effects and the meshes). -/
def Call.isConsumerBackend : Call F → Bool
  | Call.ClearImageBuffer _ _ => true
  | Call.ClearDepthBuffer => true
  | Call.UpdateFrameConstantBuffer _ _ => true
  | Call.BindShadingData _ => true
  | Call.DrawGeometry _ => true
  | Call.SwapFrontBuffer => true
  | _ => false

/-- The wait of line 102 returns and its result converts to `true`. -/
def waitSucceeds (ev : cEventInterface E) (s : sStatic F E) (osWait : cResult) : Bool :=
  match ev.WaitForEvent s.s_whenAllDataHasBeenSubmittedFromApplicationThread
      Constants.DontTimeOut osWait with
  | none => false
  | some (result, _) => result.IsSuccess

/-- The wait of line 102 returns and its result converts to `false`. -/
def waitFails (ev : cEventInterface E) (s : sStatic F E) (osWait : cResult) : Bool :=
  match ev.WaitForEvent s.s_whenAllDataHasBeenSubmittedFromApplicationThread
      Constants.DontTimeOut osWait with
  | none => false
  | some (result, _) => !result.IsSuccess

/-- The result of the signal of line 108 converts to `true`. The wait of line
102 and the swap of line 106 do not touch the ready-event, so this is
evaluated on the state at entry. -/
def raiseSucceeds (ev : cEventInterface E) (s : sStatic F E) (osSignal : cResult) : Bool :=
  (ev.Signal s.s_whenDataForANewFrameCanBeSubmittedFromApplicationThread osSignal).1.IsSuccess

/-- What the collaborators called by `Initialize` answer, one for each call in
the order of the source: the results of the context, the constant buffer, the
views, the effects and the meshes, and what the operating system answers to
the construction of each event. -/
structure sInitializationOutcomes where
  g_context_Initialize : cResult
  s_constantBuffer_frame_Initialize : cResult
  s_whenAllDataHasBeenSubmittedFromApplicationThread_Initialize : cResult
  s_whenDataForANewFrameCanBeSubmittedFromApplicationThread_Initialize : cResult
  s_view_InitializeViews : cResult
  CreateEffect_1 : cResult
  CreateEffect_2 : cResult
  CreateMesh_1 : cResult
  CreateMesh_2 : cResult

/-- What `Initialize` does besides returning, one constructor for each
statement with an effect. -/
inductive InitCall where
  | g_context_Initialize (result : cResult)
  | s_constantBuffer_frame_Initialize (result : cResult)
  | s_constantBuffer_frame_Bind
  | cEvent_Initialize (event : eEvent) (type : EventType) (initialState : EventState)
      (result : cResult)
  | s_view_InitializeViews (result : cResult)
  | CreateEffect (effect : eEffect) (result : cResult)
  | CreateMesh (mesh : eMesh) (result : cResult)
  | OutputMessage
  | ASSERTF
  deriving DecidableEq

/-- The start-up steps of `Initialize` that come after the two events: the
views, the effects and the meshes. -/
def InitCall.isAfterTheEvents : InitCall → Bool
  | InitCall.s_view_InitializeViews _ => true
  | InitCall.CreateEffect _ _ => true
  | InitCall.CreateMesh _ _ => true
  | _ => false

/-- `Initialize`, lines 169-338. The result is the returned `cResult`, the
state at the return and the calls made, in order. `CreateEffect` and
`CreateMesh` are declared outside the sources at hand: a successful call
stores the address of the object it created through its first argument, a
failed one is taken to leave the pointer as it was. -/
def Initialize (ev : cEventInterface E) (s : sStatic F E) (os : sInitializationOutcomes) :
    cResult × sStatic F E × List InitCall :=
  let result := os.g_context_Initialize
  let calls := [InitCall.g_context_Initialize result]
  if !result.IsSuccess then (result, s, calls ++ [InitCall.ASSERTF]) else
  let result := os.s_constantBuffer_frame_Initialize
  let calls := calls ++ [InitCall.s_constantBuffer_frame_Initialize result]
  if !result.IsSuccess then (result, s, calls ++ [InitCall.ASSERTF]) else
  let calls := calls ++ [InitCall.s_constantBuffer_frame_Bind]
  let initialized := ev.Initialize s.s_whenAllDataHasBeenSubmittedFromApplicationThread
    EventType.ResetAutomaticallyAfterBeingSignaled defaultInitialState
    os.s_whenAllDataHasBeenSubmittedFromApplicationThread_Initialize
  let result := initialized.1
  let s := { s with s_whenAllDataHasBeenSubmittedFromApplicationThread := initialized.2 }
  let calls := calls ++ [InitCall.cEvent_Initialize
    eEvent.s_whenAllDataHasBeenSubmittedFromApplicationThread
    EventType.ResetAutomaticallyAfterBeingSignaled defaultInitialState result]
  if !result.IsSuccess then (result, s, calls ++ [InitCall.ASSERTF]) else
  let initialized := ev.Initialize s.s_whenDataForANewFrameCanBeSubmittedFromApplicationThread
    EventType.ResetAutomaticallyAfterBeingSignaled EventState.Signaled
    os.s_whenDataForANewFrameCanBeSubmittedFromApplicationThread_Initialize
  let result := initialized.1
  let s := { s with s_whenDataForANewFrameCanBeSubmittedFromApplicationThread := initialized.2 }
  let calls := calls ++ [InitCall.cEvent_Initialize
    eEvent.s_whenDataForANewFrameCanBeSubmittedFromApplicationThread
    EventType.ResetAutomaticallyAfterBeingSignaled EventState.Signaled result]
  if !result.IsSuccess then (result, s, calls ++ [InitCall.ASSERTF]) else
  let result := os.s_view_InitializeViews
  let calls := calls ++ [InitCall.s_view_InitializeViews result]
  if !result.IsSuccess then (result, s, calls ++ [InitCall.ASSERTF]) else
  let result := os.CreateEffect_1
  let calls := calls ++ [InitCall.CreateEffect eEffect.s_effect_1 result]
  if !result.IsSuccess then (result, s, calls ++ [InitCall.ASSERTF]) else
  let s := { s with s_effect_1 := ePointer.created }
  let result := os.CreateEffect_2
  let calls := calls ++ [InitCall.CreateEffect eEffect.s_effect_2 result]
  if !result.IsSuccess then (result, s, calls ++ [InitCall.ASSERTF]) else
  let s := { s with s_effect_2 := ePointer.created }
  let calls := calls ++ [InitCall.OutputMessage]
  let result := os.CreateMesh_1
  let calls := calls ++ [InitCall.CreateMesh eMesh.s_mesh_1 result]
  if !result.IsSuccess then (result, s, calls ++ [InitCall.ASSERTF]) else
  let s := { s with s_mesh_1 := ePointer.created }
  let result := os.CreateMesh_2
  let calls := calls ++ [InitCall.CreateMesh eMesh.s_mesh_2 result]
  if !result.IsSuccess then (result, s, calls ++ [InitCall.ASSERTF]) else
  let s := { s with s_mesh_2 := ePointer.created }
  let calls := calls ++ [InitCall.OutputMessage]
  (result, s, calls)

/-- The file-scope variables when the program starts, lines 39-58: the submit
pointer is `&s_dataRequiredToRenderAFrame[0]`, the render pointer is
`&s_dataRequiredToRenderAFrame[1]`, and the pointers to the meshes and the
effects, which have static storage and no initializer, are null. The contents
of the two instances and of the two default-constructed events are given by
declarations outside the sources at hand and are arguments. -/
def staticInitializer (d0 d1 : sDataRequiredToRenderAFrame F) (e0 e1 : E) : sStatic F E where
  s_dataRequiredToRenderAFrame := fun i => if i = 0 then d0 else d1
  s_dataBeingSubmittedByApplicationThread := 0
  s_dataBeingRenderedByRenderThread := 1
  s_whenAllDataHasBeenSubmittedFromApplicationThread := e0
  s_whenDataForANewFrameCanBeSubmittedFromApplicationThread := e1
  s_mesh_1 := ePointer.nullptr
  s_mesh_2 := ePointer.nullptr
  s_effect_1 := ePointer.nullptr
  s_effect_2 := ePointer.nullptr

/-- One call of the interface of `Graphics.cpp`, with its arguments and with
what the operating system answers to the calls on events it makes. -/
inductive Operation (F : Type) where
  | SubmitElapsedTime (i_elapsedSecondCount_systemTime i_elapsedSecondCount_simulationTime : F)
  | SubmitBackBufferColor (r g b a : F)
  | WaitUntilDataForANewFrameCanBeSubmitted (i_timeToWait_inMilliseconds : Nat) (os : cResult)
  | SignalThatAllDataForAFrameHasBeenSubmitted (os : cResult)
  | RenderFrame (osWait osSignal : cResult)
  | Initialize (os : sInitializationOutcomes)

/-- The state after one call; `none` when the call does not return. After a
`RenderFrame` that ends at a null pointer the state is the one at that point:
the program would run no further call, so this only adds states. -/
def runOperation (ev : cEventInterface E) (s : sStatic F E) : Operation F → Option (sStatic F E)
  | Operation.SubmitElapsedTime sys sim => some (SubmitElapsedTime s sys sim)
  | Operation.SubmitBackBufferColor r g b a => some (SubmitBackBufferColor s r g b a)
  | Operation.WaitUntilDataForANewFrameCanBeSubmitted t os =>
    (WaitUntilDataForANewFrameCanBeSubmitted ev s t os).map Prod.snd
  | Operation.SignalThatAllDataForAFrameHasBeenSubmitted os =>
    some (SignalThatAllDataForAFrameHasBeenSubmitted ev s os).2
  | Operation.RenderFrame osWait osSignal => (RenderFrame ev s osWait osSignal).map Prod.fst
  | Operation.Initialize os => some (Initialize ev s os).2.1

/-- The state after a sequence of calls made one after the other. -/
def runOperations (ev : cEventInterface E) (s : sStatic F E) :
    List (Operation F) → Option (sStatic F E)
  | [] => some s
  | op :: ops =>
    match runOperation ev s op with
    | none => none
    | some s1 => runOperations ev s1 ops

/-- The double-buffer invariant of the spec (section 3): the two pointers are
different, and each instance is pointed to by exactly one of them. -/
def HandlesDisjoint (s : sStatic F E) : Prop :=
  s.s_dataBeingSubmittedByApplicationThread ≠ s.s_dataBeingRenderedByRenderThread ∧
  ∀ i : Fin 2,
    (s.s_dataBeingSubmittedByApplicationThread = i ∧ s.s_dataBeingRenderedByRenderThread ≠ i) ∨
    (s.s_dataBeingSubmittedByApplicationThread ≠ i ∧ s.s_dataBeingRenderedByRenderThread = i)

/-- The file-scope variables at the return of an iteration of `RenderFrame`
that got past the wait, in closed form: the pointers are exchanged, and the
events are `waited`, what the wait left of the submitted-event, and
`signalled`, what the signal left of the ready-event. It is compared with
`RenderFrame` in `RenderFrame_eq_of_succeeds` and
`RenderFrame_eq_of_raiseFails`. -/
def handedOver (s : sStatic F E) (waited signalled : E) : sStatic F E :=
  { s with
    s_dataBeingSubmittedByApplicationThread := s.s_dataBeingRenderedByRenderThread
    s_dataBeingRenderedByRenderThread := s.s_dataBeingSubmittedByApplicationThread
    s_whenAllDataHasBeenSubmittedFromApplicationThread := waited
    s_whenDataForANewFrameCanBeSubmittedFromApplicationThread := signalled }

/-- The effects and the meshes have been created: none of the four pointers of
lines 54-58 is null. `Initialize` leaves them so when it returns success. -/
def EffectsAndMeshesCreated (s : sStatic F E) : Prop :=
  s.s_effect_1 = ePointer.created ∧ s.s_mesh_1 = ePointer.created ∧
  s.s_effect_2 = ePointer.created ∧ s.s_mesh_2 = ePointer.created

/-- Modelled from the spec: the code that calls the submission interface is not
part of the sources at hand. Following section 4.3, for one frame the producer
waits until submission is allowed, writes what it submits (the elapsed times,
the back-buffer color, both or neither) and then signals once. -/
structure sSubmittedFrame (F : Type) where
  i_timeToWait_inMilliseconds : Nat
  elapsedSecondCount : Option (F × F)
  backBufferColor : Option (F × F × F × F)

/-- The `Submit` calls the application makes for one frame. -/
def submitFrame (s : sStatic F E) (frame : sSubmittedFrame F) : sStatic F E :=
  let s1 :=
    match frame.elapsedSecondCount with
    | some (sys, sim) => SubmitElapsedTime s sys sim
    | none => s
  match frame.backBufferColor with
  | some (r, g, b, a) => SubmitBackBufferColor s1 r g b a
  | none => s1

/-- One successful cycle: the application waits until it may submit, submits
and signals, then `RenderFrame` runs and gets to its render pass; the operating
system answers every call on an event without fault. The result is the state
after the cycle and the calls of `RenderFrame`; it is `none` when the cycle is
not successful: a wait does not return, or a call on an event fails. -/
def runCycle (ev : cEventInterface E) (s : sStatic F E) (frame : sSubmittedFrame F) :
    Option (sStatic F E × List (Call F)) :=
  match WaitUntilDataForANewFrameCanBeSubmitted ev s frame.i_timeToWait_inMilliseconds
      cResult.Success with
  | none => none
  | some (result, s1) =>
    if result.IsSuccess then
      let submitted :=
        SignalThatAllDataForAFrameHasBeenSubmitted ev (submitFrame s1 frame) cResult.Success
      if submitted.1.IsSuccess ∧ waitSucceeds ev submitted.2 cResult.Success ∧
          raiseSucceeds ev submitted.2 cResult.Success then
        RenderFrame ev submitted.2 cResult.Success cResult.Success
      else none
    else none

/-- Successive cycles, one for each frame of the list; the result holds the
calls of each `RenderFrame`, in order. -/
def runCycles (ev : cEventInterface E) (s : sStatic F E) : List (sSubmittedFrame F) →
    Option (sStatic F E × List (List (Call F)))
  | [] => some (s, [])
  | frame :: frames =>
    match runCycle ev s frame with
    | none => none
    | some (s1, calls) =>
      match runCycles ev s1 frames with
      | none => none
      | some (s2, rest) => some (s2, calls :: rest)

/-- The frame data a call of `RenderFrame` hands to the view, if any. -/
def Call.frameData : Call F → Option (sDataRequiredToRenderAFrame F)
  | Call.ClearImageBuffer _ data => some data
  | Call.UpdateFrameConstantBuffer _ data => some data
  | _ => none

/-- The frame data the render pass receives, call after call. -/
def frameDataReceived (calls : List (Call F)) : List (sDataRequiredToRenderAFrame F) :=
  calls.filterMap Call.frameData

/-- An instance holding `d` after the writes of one frame, in closed form:
a member that is not submitted keeps the value the instance held. It is
compared with `submitFrame` in `submitFrame_data`. -/
def written (d : sDataRequiredToRenderAFrame F) (frame : sSubmittedFrame F) :
    sDataRequiredToRenderAFrame F :=
  { constantData_frame :=
      match frame.elapsedSecondCount with
      | some (sys, sim) =>
        { g_elapsedSecondCount_systemTime := sys, g_elapsedSecondCount_simulationTime := sim }
      | none => d.constantData_frame
    backBufferColor :=
      match frame.backBufferColor with
      | some (r, g, b, a) => { R := r, G := g, B := b, A := a }
      | none => d.backBufferColor }

/-- What the render pass receives over successive cycles, in closed form, when
the instance written next holds `mine` and the other one holds `other`: the
two instances take turns, and nothing is cleared or copied in between. It is
compared with `runCycles` in `runCycles_frameData`. -/
def staleFrames (mine other : sDataRequiredToRenderAFrame F) :
    List (sSubmittedFrame F) → List (sDataRequiredToRenderAFrame F)
  | [] => []
  | frame :: frames => written mine frame :: staleFrames other (written mine frame) frames

/-- Modelled from the spec: the application loop thread is not part of the
sources at hand. Following section 4.3, it is either `waiting` (it has to call
`WaitUntilDataForANewFrameCanBeSubmitted` with success before it may write) or
`submitting` (its wait has succeeded, it may call `SubmitElapsedTime` and
`SubmitBackBufferColor`, and it has not yet signalled). -/
inductive eApplicationThread where
  | waiting
  | submitting
  deriving DecidableEq

/-- Where the render thread is while it calls `RenderFrame` again and again:
the line of the statement it executes next. `std::swap` at line 106 is three
statements: read the submit pointer into a temporary, overwrite the submit
pointer with the render pointer, overwrite the render pointer with the
temporary. -/
inductive eRenderThread where
  | line102
  | line106_read
  | line106_writeSubmitted (temporary : Fin 2)
  | line106_writeRendered (temporary : Fin 2)
  | line108
  | line130
  | line135
  | line138
  | line141
  | line144
  | line147
  | line150
  | line155
  deriving DecidableEq

/-- The render thread is inside `std::swap`, line 106. -/
def eRenderThread.isSwapping : eRenderThread → Bool
  | eRenderThread.line106_read => true
  | eRenderThread.line106_writeSubmitted _ => true
  | eRenderThread.line106_writeRendered _ => true
  | _ => false

/-- The render thread is between the successful wait of line 102 and the signal
of line 108. -/
def eRenderThread.isHandingOver : eRenderThread → Bool
  | eRenderThread.line106_read => true
  | eRenderThread.line106_writeSubmitted _ => true
  | eRenderThread.line106_writeRendered _ => true
  | eRenderThread.line108 => true
  | _ => false

/-- The render thread is about to hand the instance its render pointer
designates to the view, lines 130 and 138. -/
def eRenderThread.isReading : eRenderThread → Bool
  | eRenderThread.line130 => true
  | eRenderThread.line138 => true
  | _ => false

/-- The two threads and the file-scope variables they share. -/
structure sThreads (F E : Type) where
  statics : sStatic F E
  application : eApplicationThread
  render : eRenderThread

/-- One step of one of the two threads, with what the operating system answers
when the step is a call on an event. -/
inductive Step (F : Type) where
  | application_WaitUntilDataForANewFrameCanBeSubmitted (i_timeToWait_inMilliseconds : Nat)
      (os : cResult)
  | application_SubmitElapsedTime (i_elapsedSecondCount_systemTime
      i_elapsedSecondCount_simulationTime : F)
  | application_SubmitBackBufferColor (r g b a : F)
  | application_SignalThatAllDataForAFrameHasBeenSubmitted (os : cResult)
  | render (os : cResult)

/-- The next statement of `RenderFrame` on the render thread; `none` when the
thread is blocked in the wait of line 102, or has ended at a call through a
null pointer (lines 141-150). After a `return` the thread calls `RenderFrame`
again. -/
def stepRender (ev : cEventInterface E) (st : sThreads F E) (os : cResult) :
    Option (sThreads F E) :=
  match st.render with
  | eRenderThread.line102 =>
    match ev.WaitForEvent st.statics.s_whenAllDataHasBeenSubmittedFromApplicationThread
        Constants.DontTimeOut os with
    | none => none
    | some (result, event) =>
      some { st with
        statics :=
          { st.statics with s_whenAllDataHasBeenSubmittedFromApplicationThread := event }
        render := if result.IsSuccess then eRenderThread.line106_read else eRenderThread.line102 }
  | eRenderThread.line106_read =>
    some { st with
      render :=
        eRenderThread.line106_writeSubmitted st.statics.s_dataBeingSubmittedByApplicationThread }
  | eRenderThread.line106_writeSubmitted temporary =>
    some { st with
      statics :=
        { st.statics with
          s_dataBeingSubmittedByApplicationThread := st.statics.s_dataBeingRenderedByRenderThread }
      render := eRenderThread.line106_writeRendered temporary }
  | eRenderThread.line106_writeRendered temporary =>
    some { st with
      statics := { st.statics with s_dataBeingRenderedByRenderThread := temporary }
      render := eRenderThread.line108 }
  | eRenderThread.line108 =>
    let signalled :=
      ev.Signal st.statics.s_whenDataForANewFrameCanBeSubmittedFromApplicationThread os
    some { st with
      statics :=
        { st.statics with
          s_whenDataForANewFrameCanBeSubmittedFromApplicationThread := signalled.2 }
      render := if signalled.1.IsSuccess then eRenderThread.line130 else eRenderThread.line102 }
  | eRenderThread.line130 => some { st with render := eRenderThread.line135 }
  | eRenderThread.line135 => some { st with render := eRenderThread.line138 }
  | eRenderThread.line138 => some { st with render := eRenderThread.line141 }
  | eRenderThread.line141 =>
    match st.statics.s_effect_1 with
    | ePointer.nullptr => none
    | ePointer.created => some { st with render := eRenderThread.line144 }
  | eRenderThread.line144 =>
    match st.statics.s_mesh_1 with
    | ePointer.nullptr => none
    | ePointer.created => some { st with render := eRenderThread.line147 }
  | eRenderThread.line147 =>
    match st.statics.s_effect_2 with
    | ePointer.nullptr => none
    | ePointer.created => some { st with render := eRenderThread.line150 }
  | eRenderThread.line150 =>
    match st.statics.s_mesh_2 with
    | ePointer.nullptr => none
    | ePointer.created => some { st with render := eRenderThread.line155 }
  | eRenderThread.line155 => some { st with render := eRenderThread.line102 }

/-- One step of the two threads; `none` when the thread that is to step cannot
make this step: it is blocked in a wait, it has ended at a null pointer, or
the step is not the application thread's turn under the protocol of section
4.3. -/
def stepThreads (ev : cEventInterface E) (st : sThreads F E) : Step F → Option (sThreads F E)
  | Step.application_WaitUntilDataForANewFrameCanBeSubmitted t os =>
    match st.application with
    | eApplicationThread.submitting => none
    | eApplicationThread.waiting =>
      match WaitUntilDataForANewFrameCanBeSubmitted ev st.statics t os with
      | none => none
      | some (result, s) =>
        some { st with
          statics := s
          application :=
            if result.IsSuccess then eApplicationThread.submitting
            else eApplicationThread.waiting }
  | Step.application_SubmitElapsedTime sys sim =>
    match st.application with
    | eApplicationThread.waiting => none
    | eApplicationThread.submitting =>
      some { st with statics := SubmitElapsedTime st.statics sys sim }
  | Step.application_SubmitBackBufferColor r g b a =>
    match st.application with
    | eApplicationThread.waiting => none
    | eApplicationThread.submitting =>
      some { st with statics := SubmitBackBufferColor st.statics r g b a }
  | Step.application_SignalThatAllDataForAFrameHasBeenSubmitted os =>
    match st.application with
    | eApplicationThread.waiting => none
    | eApplicationThread.submitting =>
      some { st with
        statics := (SignalThatAllDataForAFrameHasBeenSubmitted ev st.statics os).2
        application := eApplicationThread.waiting }
  | Step.render os => stepRender ev st os

/-- An interleaving of the two threads: the steps are made one after the
other, in the order of the list. -/
def runThreads (ev : cEventInterface E) (st : sThreads F E) :
    List (Step F) → Option (sThreads F E)
  | [] => some st
  | step :: steps =>
    match stepThreads ev st step with
    | none => none
    | some st1 => runThreads ev st1 steps

/-- The two threads when they start: the application thread has to wait before
it writes, the render thread enters `RenderFrame`. -/
def startThreads (s : sStatic F E) : sThreads F E :=
  { statics := s, application := eApplicationThread.waiting, render := eRenderThread.line102 }

/-- The invariant of the handoff under the event primitive of the spec: both
events are reset automatically; while
the render thread hands over (lines 106 to 108), and while the application
thread submits, both events are down; the two are never up together; the
pointers differ except in the middle of `std::swap`. -/
def HandoffInvariant (st : sThreads F cEvent) : Prop :=
  st.statics.s_whenAllDataHasBeenSubmittedFromApplicationThread.type =
    EventType.ResetAutomaticallyAfterBeingSignaled ∧
  st.statics.s_whenDataForANewFrameCanBeSubmittedFromApplicationThread.type =
    EventType.ResetAutomaticallyAfterBeingSignaled ∧
  (st.render.isHandingOver = true → st.application = eApplicationThread.waiting) ∧
  ((st.render.isHandingOver = true ∨ st.application = eApplicationThread.submitting) →
    st.statics.s_whenAllDataHasBeenSubmittedFromApplicationThread.state =
      EventState.Unsignaled ∧
    st.statics.s_whenDataForANewFrameCanBeSubmittedFromApplicationThread.state =
      EventState.Unsignaled) ∧
  (st.statics.s_whenAllDataHasBeenSubmittedFromApplicationThread.state =
      EventState.Unsignaled ∨
    st.statics.s_whenDataForANewFrameCanBeSubmittedFromApplicationThread.state =
      EventState.Unsignaled) ∧
  match st.render with
  | eRenderThread.line106_writeSubmitted temporary =>
    temporary = st.statics.s_dataBeingSubmittedByApplicationThread ∧
    st.statics.s_dataBeingSubmittedByApplicationThread ≠
      st.statics.s_dataBeingRenderedByRenderThread
  | eRenderThread.line106_writeRendered temporary =>
    st.statics.s_dataBeingSubmittedByApplicationThread =
      st.statics.s_dataBeingRenderedByRenderThread ∧
    temporary ≠ st.statics.s_dataBeingRenderedByRenderThread
  | _ =>
    st.statics.s_dataBeingSubmittedByApplicationThread ≠
      st.statics.s_dataBeingRenderedByRenderThread

/-! ## Concrete inputs -/

/-- Frame data with every member zero. -/
def exampleData : sDataRequiredToRenderAFrame ℚ :=
  { constantData_frame :=
      { g_elapsedSecondCount_systemTime := 0, g_elapsedSecondCount_simulationTime := 0 }
    backBufferColor := { R := 0, G := 0, B := 0, A := 0 } }

/-- An event of the spec before `Initialize` has constructed it. -/
def exampleEvent : cEvent :=
  { type := EventType.RemainSignaledUntilReset, state := EventState.Unsignaled }

/-- Every collaborator of `Initialize` answers success. -/
def exampleOutcomes : sInitializationOutcomes :=
  { g_context_Initialize := cResult.Success
    s_constantBuffer_frame_Initialize := cResult.Success
    s_whenAllDataHasBeenSubmittedFromApplicationThread_Initialize := cResult.Success
    s_whenDataForANewFrameCanBeSubmittedFromApplicationThread_Initialize := cResult.Success
    s_view_InitializeViews := cResult.Success
    CreateEffect_1 := cResult.Success
    CreateEffect_2 := cResult.Success
    CreateMesh_1 := cResult.Success
    CreateMesh_2 := cResult.Success }

/-- The construction of the submitted-event fails with code 7. -/
def exampleSubmittedEventFails : sInitializationOutcomes :=
  { exampleOutcomes with
    s_whenAllDataHasBeenSubmittedFromApplicationThread_Initialize := cResult.Failure 7 }

/-- The views cannot be initialized: `Initialize` returns at line 214, after it
has constructed the two events and before it creates an effect or a mesh. -/
def exampleViewsFail : sInitializationOutcomes :=
  { exampleOutcomes with s_view_InitializeViews := cResult.Failure 3 }

/-- The file-scope variables when the program starts. -/
def exampleStatic : sStatic ℚ cEvent :=
  staticInitializer exampleData exampleData exampleEvent exampleEvent

/-- The file-scope variables after a successful `Initialize`. -/
def exampleInitialized : sStatic ℚ cEvent :=
  (Initialize specified exampleStatic exampleOutcomes).2.1

/-- Scenario A of the spec, the producer's part: elapsed times `(1, 1)`, color
`(1, 0, 0, 1)`, then the signal. -/
def exampleSubmitted : sStatic ℚ cEvent :=
  (SignalThatAllDataForAFrameHasBeenSubmitted specified
    (SubmitBackBufferColor (SubmitElapsedTime exampleInitialized 1 1) 1 0 0 1)
    cResult.Success).2

/-- The file-scope variables after an `Initialize` that failed at the views,
once the application has signalled a frame: the events are constructed, the
submitted-event is up, and the pointers to the effects and the meshes are
still null. -/
def exampleNotCreated : sStatic ℚ cEvent :=
  (SignalThatAllDataForAFrameHasBeenSubmitted specified
    (Initialize specified exampleStatic exampleViewsFail).2.1 cResult.Success).2

/-- Scenario A as a sequence of calls of the interface, from the start of the
program. -/
def exampleOperations : List (Operation ℚ) :=
  [ Operation.Initialize exampleOutcomes,
    Operation.WaitUntilDataForANewFrameCanBeSubmitted 0 cResult.Success,
    Operation.SubmitElapsedTime 1 1,
    Operation.SubmitBackBufferColor 1 0 0 1,
    Operation.SignalThatAllDataForAFrameHasBeenSubmitted cResult.Success,
    Operation.RenderFrame cResult.Success cResult.Success ]

/-- Three frames: the first two submit elapsed times and a color (red, then
green), the third submits elapsed times only. -/
def exampleFrames : List (sSubmittedFrame ℚ) :=
  [ { i_timeToWait_inMilliseconds := 0, elapsedSecondCount := some (1, 1)
      backBufferColor := some (1, 0, 0, 1) },
    { i_timeToWait_inMilliseconds := 0, elapsedSecondCount := some (2, 2)
      backBufferColor := some (0, 1, 0, 1) },
    { i_timeToWait_inMilliseconds := 0, elapsedSecondCount := some (3, 3)
      backBufferColor := none } ]

/-- An interleaving: the application thread submits a first frame, the render
thread takes it over (wait, swap, signal), and the application thread starts
on the next frame while the render thread is about to read the first. -/
def exampleSteps : List (Step ℚ) :=
  [ Step.application_WaitUntilDataForANewFrameCanBeSubmitted 0 cResult.Success,
    Step.application_SubmitElapsedTime 1 1,
    Step.application_SubmitBackBufferColor 1 0 0 1,
    Step.application_SignalThatAllDataForAFrameHasBeenSubmitted cResult.Success,
    Step.render cResult.Success,
    Step.render cResult.Success,
    Step.render cResult.Success,
    Step.render cResult.Success,
    Step.render cResult.Success,
    Step.application_WaitUntilDataForANewFrameCanBeSubmitted 0 cResult.Success ]

/-! ## Theorems -/

/-- Only `Success` converts to `true`. -/
theorem cResult_IsSuccess_iff (r : cResult) : r.IsSuccess = true ↔ r = cResult.Success := by
  cases r <;> simp [cResult.IsSuccess]

/-- A wait that succeeds has returned `Success` and some event. -/
theorem waitSucceeds_elim (ev : cEventInterface E) (s : sStatic F E) (osWait : cResult)
    (h : waitSucceeds ev s osWait = true) :
    ∃ waited, ev.WaitForEvent s.s_whenAllDataHasBeenSubmittedFromApplicationThread
      Constants.DontTimeOut osWait = some (cResult.Success, waited) := by
  unfold waitSucceeds at h
  cases hw : ev.WaitForEvent s.s_whenAllDataHasBeenSubmittedFromApplicationThread
      Constants.DontTimeOut osWait with
  | none => simp [hw] at h
  | some x =>
    obtain ⟨result, waited⟩ := x
    simp only [hw] at h
    rw [cResult_IsSuccess_iff] at h
    exact ⟨waited, by rw [h]⟩

/-- A wait that fails has returned a result other than success and some event. -/
theorem waitFails_elim (ev : cEventInterface E) (s : sStatic F E) (osWait : cResult)
    (h : waitFails ev s osWait = true) :
    ∃ result waited, ev.WaitForEvent s.s_whenAllDataHasBeenSubmittedFromApplicationThread
      Constants.DontTimeOut osWait = some (result, waited) ∧ result.IsSuccess = false := by
  unfold waitFails at h
  cases hw : ev.WaitForEvent s.s_whenAllDataHasBeenSubmittedFromApplicationThread
      Constants.DontTimeOut osWait with
  | none => simp [hw] at h
  | some x =>
    obtain ⟨result, waited⟩ := x
    simp only [hw, Bool.not_eq_true'] at h
    exact ⟨result, waited, rfl, h⟩

/-- The render pass begins with the three calls on the view, whatever the
pointers to the effects and the meshes are. -/
theorem renderPass_view (s : sStatic F E) :
    ∃ rest : List (Call F),
      renderPass s =
        [ Call.ClearImageBuffer s.s_dataBeingRenderedByRenderThread
            (s.s_dataRequiredToRenderAFrame s.s_dataBeingRenderedByRenderThread),
          Call.ClearDepthBuffer,
          Call.UpdateFrameConstantBuffer s.s_dataBeingRenderedByRenderThread
            (s.s_dataRequiredToRenderAFrame s.s_dataBeingRenderedByRenderThread) ] ++ rest ∧
      ∀ c ∈ rest, c.frameData = none :=
  ⟨_, rfl, by
    cases h1 : s.s_effect_1 <;> cases h2 : s.s_mesh_1 <;> cases h3 : s.s_effect_2 <;>
      cases h4 : s.s_mesh_2 <;> simp [Call.frameData]⟩

/-- The render pass hands frame data to two calls, the instance behind the
render pointer both times, whatever the pointers to the effects and the
meshes are. -/
theorem frameDataReceived_renderPass (s : sStatic F E) :
    frameDataReceived (renderPass s) =
      [ s.s_dataRequiredToRenderAFrame s.s_dataBeingRenderedByRenderThread,
        s.s_dataRequiredToRenderAFrame s.s_dataBeingRenderedByRenderThread ] := by
  cases h1 : s.s_effect_1 <;> cases h2 : s.s_mesh_1 <;> cases h3 : s.s_effect_2 <;>
    cases h4 : s.s_mesh_2 <;>
    simp [frameDataReceived, renderPass, h1, h2, h3, h4, Call.frameData]

/-- The render pass when the effects and the meshes have been created. -/
theorem renderPass_of_created (s : sStatic F E) (hcreated : EffectsAndMeshesCreated s) :
    renderPass s =
      [ Call.ClearImageBuffer s.s_dataBeingRenderedByRenderThread
          (s.s_dataRequiredToRenderAFrame s.s_dataBeingRenderedByRenderThread),
        Call.ClearDepthBuffer,
        Call.UpdateFrameConstantBuffer s.s_dataBeingRenderedByRenderThread
          (s.s_dataRequiredToRenderAFrame s.s_dataBeingRenderedByRenderThread),
        Call.BindShadingData eEffect.s_effect_1,
        Call.DrawGeometry eMesh.s_mesh_1,
        Call.BindShadingData eEffect.s_effect_2,
        Call.DrawGeometry eMesh.s_mesh_2,
        Call.SwapFrontBuffer ] := by
  obtain ⟨h1, h2, h3, h4⟩ := hcreated
  simp [renderPass, h1, h2, h3, h4]

/-- `RenderFrame` on the path where the wait and the signal succeed. -/
theorem RenderFrame_eq_of_succeeds (ev : cEventInterface E) (s : sStatic F E)
    (osWait osSignal : cResult) (waited : E)
    (hwait : ev.WaitForEvent s.s_whenAllDataHasBeenSubmittedFromApplicationThread
      Constants.DontTimeOut osWait = some (cResult.Success, waited))
    (hraise : raiseSucceeds ev s osSignal = true) :
    RenderFrame ev s osWait osSignal = some
      (handedOver s waited
        (ev.Signal s.s_whenDataForANewFrameCanBeSubmittedFromApplicationThread osSignal).2,
      [ Call.WaitForEvent eEvent.s_whenAllDataHasBeenSubmittedFromApplicationThread
          cResult.Success,
        Call.swap,
        Call.Signal eEvent.s_whenDataForANewFrameCanBeSubmittedFromApplicationThread
          cResult.Success ] ++
        renderPass (handedOver s waited
          (ev.Signal s.s_whenDataForANewFrameCanBeSubmittedFromApplicationThread
            osSignal).2)) := by
  have hresult := (cResult_IsSuccess_iff _).1 hraise
  unfold raiseSucceeds at hraise
  simp [RenderFrame, hwait, cResult.IsSuccess, swapPointers, hraise, hresult, handedOver]

/-- `RenderFrame` on the path where the wait fails, lines 117-124. -/
theorem RenderFrame_eq_of_waitFails (ev : cEventInterface E) (s : sStatic F E)
    (osWait osSignal : cResult) (result : cResult) (waited : E)
    (hwait : ev.WaitForEvent s.s_whenAllDataHasBeenSubmittedFromApplicationThread
      Constants.DontTimeOut osWait = some (result, waited))
    (hresult : result.IsSuccess = false) :
    RenderFrame ev s osWait osSignal = some
      ({ s with s_whenAllDataHasBeenSubmittedFromApplicationThread := waited },
      [ Call.WaitForEvent eEvent.s_whenAllDataHasBeenSubmittedFromApplicationThread result,
        Call.ASSERTF, Call.OutputError, Call.Print ]) := by
  simp [RenderFrame, hwait, hresult]

/-- `RenderFrame` on the path where the signal fails, lines 108-115. -/
theorem RenderFrame_eq_of_raiseFails (ev : cEventInterface E) (s : sStatic F E)
    (osWait osSignal : cResult) (waited : E)
    (hwait : ev.WaitForEvent s.s_whenAllDataHasBeenSubmittedFromApplicationThread
      Constants.DontTimeOut osWait = some (cResult.Success, waited))
    (hraise : raiseSucceeds ev s osSignal = false) :
    RenderFrame ev s osWait osSignal = some
      (handedOver s waited
        (ev.Signal s.s_whenDataForANewFrameCanBeSubmittedFromApplicationThread osSignal).2,
      [ Call.WaitForEvent eEvent.s_whenAllDataHasBeenSubmittedFromApplicationThread
          cResult.Success,
        Call.swap,
        Call.Signal eEvent.s_whenDataForANewFrameCanBeSubmittedFromApplicationThread
          (ev.Signal s.s_whenDataForANewFrameCanBeSubmittedFromApplicationThread osSignal).1,
        Call.ASSERTF, Call.OutputError, Call.Print ]) := by
  unfold raiseSucceeds at hraise
  have hS : cResult.Success.IsSuccess = true := rfl
  simp [RenderFrame, hwait, hS, swapPointers, hraise, handedOver]

/-- C4, for the states in which the effects and the meshes have been created.
When none of `s_effect_1`, `s_mesh_1`, `s_effect_2`, `s_mesh_2` is null (as
after a successful `Initialize`), the wait on the submitted-event succeeds and the
raise of the ready-event succeeds, `RenderFrame` returns and has made exactly
these eleven calls, in this order and each once: the wait, the swap of the two
pointers, the raise, clear image buffer and (after clear depth buffer) update
frame constant buffer, both with the render pointer as it is after the swap,
bind effect 1, draw mesh 1, bind effect 2, draw mesh 2, present. The pointers
at the return are the pointers at entry, exchanged. This holds for every
implementation of the event primitive. -/
theorem RenderFrame_effect_order (ev : cEventInterface E) (s : sStatic F E)
    (osWait osSignal : cResult) (hcreated : EffectsAndMeshesCreated s)
    (hwait : waitSucceeds ev s osWait = true) (hraise : raiseSucceeds ev s osSignal = true) :
    ∃ s' : sStatic F E,
      RenderFrame ev s osWait osSignal = some (s',
        [ Call.WaitForEvent eEvent.s_whenAllDataHasBeenSubmittedFromApplicationThread
            cResult.Success,
          Call.swap,
          Call.Signal eEvent.s_whenDataForANewFrameCanBeSubmittedFromApplicationThread
            cResult.Success,
          Call.ClearImageBuffer s'.s_dataBeingRenderedByRenderThread
            (s'.s_dataRequiredToRenderAFrame s'.s_dataBeingRenderedByRenderThread),
          Call.ClearDepthBuffer,
          Call.UpdateFrameConstantBuffer s'.s_dataBeingRenderedByRenderThread
            (s'.s_dataRequiredToRenderAFrame s'.s_dataBeingRenderedByRenderThread),
          Call.BindShadingData eEffect.s_effect_1,
          Call.DrawGeometry eMesh.s_mesh_1,
          Call.BindShadingData eEffect.s_effect_2,
          Call.DrawGeometry eMesh.s_mesh_2,
          Call.SwapFrontBuffer ]) ∧
      s'.s_dataBeingRenderedByRenderThread = s.s_dataBeingSubmittedByApplicationThread ∧
      s'.s_dataBeingSubmittedByApplicationThread = s.s_dataBeingRenderedByRenderThread := by
  obtain ⟨waited, hw⟩ := waitSucceeds_elim ev s osWait hwait
  refine ⟨handedOver s waited
    (ev.Signal s.s_whenDataForANewFrameCanBeSubmittedFromApplicationThread osSignal).2,
    ?_, rfl, rfl⟩
  rw [RenderFrame_eq_of_succeeds ev s osWait osSignal waited hw hraise,
    renderPass_of_created _ (by exact hcreated)]
  rfl

/-- C4 for every state, the effects and the meshes created or not, fails.
After an `Initialize` that returned at
line 214 (the views failed, the two events are constructed, no effect and no
mesh has been created) and a signal of the application, the wait and the raise
of `RenderFrame` both succeed, but the run ends at line 141, in the call
through the null `s_effect_1`: nothing is bound, drawn or presented, and the
calls made are not the eleven calls of the claim. -/
theorem RenderFrame_effect_order_counterexample :
    waitSucceeds specified exampleNotCreated cResult.Success = true ∧
    raiseSucceeds specified exampleNotCreated cResult.Success = true ∧
    (RenderFrame specified exampleNotCreated cResult.Success cResult.Success).map Prod.snd =
      some
        [ Call.WaitForEvent eEvent.s_whenAllDataHasBeenSubmittedFromApplicationThread
            cResult.Success,
          Call.swap,
          Call.Signal eEvent.s_whenDataForANewFrameCanBeSubmittedFromApplicationThread
            cResult.Success,
          Call.ClearImageBuffer 0 exampleData,
          Call.ClearDepthBuffer,
          Call.UpdateFrameConstantBuffer 0 exampleData,
          Call.BindShadingData_nullptr eEffect.s_effect_1 ] ∧
    ¬ ∃ s' : sStatic ℚ cEvent,
      RenderFrame specified exampleNotCreated cResult.Success cResult.Success = some (s',
        [ Call.WaitForEvent eEvent.s_whenAllDataHasBeenSubmittedFromApplicationThread
            cResult.Success,
          Call.swap,
          Call.Signal eEvent.s_whenDataForANewFrameCanBeSubmittedFromApplicationThread
            cResult.Success,
          Call.ClearImageBuffer s'.s_dataBeingRenderedByRenderThread
            (s'.s_dataRequiredToRenderAFrame s'.s_dataBeingRenderedByRenderThread),
          Call.ClearDepthBuffer,
          Call.UpdateFrameConstantBuffer s'.s_dataBeingRenderedByRenderThread
            (s'.s_dataRequiredToRenderAFrame s'.s_dataBeingRenderedByRenderThread),
          Call.BindShadingData eEffect.s_effect_1,
          Call.DrawGeometry eMesh.s_mesh_1,
          Call.BindShadingData eEffect.s_effect_2,
          Call.DrawGeometry eMesh.s_mesh_2,
          Call.SwapFrontBuffer ]) := by
  refine ⟨rfl, rfl, rfl, ?_⟩
  rintro ⟨s', h⟩
  have hlength : (RenderFrame specified exampleNotCreated cResult.Success
      cResult.Success).map (fun x => x.2.length) = some 7 := rfl
  rw [h] at hlength
  simp at hlength

/-- C5. When the wait on the submitted-event inside `RenderFrame` returns
without success, the iteration takes the fatal path: it asserts, logs, prints
and returns. The pointers are not exchanged, both frame-data instances and the
ready-event are what they were at entry, and the calls made are the wait and
the three calls of the error path: no swap, no raise of the ready-event, no
call to the consumer backend. This holds for every implementation of the
event primitive. -/
theorem RenderFrame_fatal_on_failed_wait (ev : cEventInterface E) (s : sStatic F E)
    (osWait osSignal : cResult) (hfail : waitFails ev s osWait = true) :
    ∃ (s' : sStatic F E) (calls : List (Call F)) (result : cResult),
      RenderFrame ev s osWait osSignal = some (s', calls) ∧
      s'.s_dataBeingSubmittedByApplicationThread = s.s_dataBeingSubmittedByApplicationThread ∧
      s'.s_dataBeingRenderedByRenderThread = s.s_dataBeingRenderedByRenderThread ∧
      s'.s_dataRequiredToRenderAFrame = s.s_dataRequiredToRenderAFrame ∧
      s'.s_whenDataForANewFrameCanBeSubmittedFromApplicationThread =
        s.s_whenDataForANewFrameCanBeSubmittedFromApplicationThread ∧
      result.IsSuccess = false ∧
      calls = [ Call.WaitForEvent eEvent.s_whenAllDataHasBeenSubmittedFromApplicationThread result,
        Call.ASSERTF, Call.OutputError, Call.Print ] ∧
      Call.swap ∉ calls ∧
      (∀ event result', Call.Signal event result' ∉ calls) ∧
      ∀ c ∈ calls, c.isConsumerBackend = false := by
  obtain ⟨result, waited, hw, hresult⟩ := waitFails_elim ev s osWait hfail
  refine ⟨_, _, result, RenderFrame_eq_of_waitFails ev s osWait osSignal result waited hw hresult,
    rfl, rfl, rfl, rfl, hresult, rfl, ?_, ?_, ?_⟩
  · simp
  · intro event result'
    simp
  · intro c hc
    simp at hc
    rcases hc with rfl | rfl | rfl | rfl <;> rfl

/-- C1. Scenario A. From any state of the file-scope variables (the initialized
state among them), let the producer call `SubmitElapsedTime sys sim`, then
`SubmitBackBufferColor r g b a`, then
`SignalThatAllDataForAFrameHasBeenSubmitted`, and let the consumer run
`RenderFrame`. If in that iteration the wait and the raise of the ready-event
both succeed, then `RenderFrame` returns, it calls `ClearImageBuffer` and
`UpdateFrameConstantBuffer`, and the frame data every such call is given has
system time `sys`, simulation time `sim` and back-buffer color `(r, g, b, a)`.
This holds for every implementation of the event primitive. -/
theorem scenario_A_render_receives_submitted (ev : cEventInterface E) (s : sStatic F E)
    (sys sim r g b a : F) (osSubmit osWait osSignal : cResult)
    (hwait : waitSucceeds ev (SignalThatAllDataForAFrameHasBeenSubmitted ev
      (SubmitBackBufferColor (SubmitElapsedTime s sys sim) r g b a) osSubmit).2 osWait = true)
    (hraise : raiseSucceeds ev (SignalThatAllDataForAFrameHasBeenSubmitted ev
      (SubmitBackBufferColor (SubmitElapsedTime s sys sim) r g b a) osSubmit).2 osSignal =
        true) :
    ∃ (s' : sStatic F E) (calls : List (Call F)),
      RenderFrame ev (SignalThatAllDataForAFrameHasBeenSubmitted ev
        (SubmitBackBufferColor (SubmitElapsedTime s sys sim) r g b a) osSubmit).2
        osWait osSignal = some (s', calls) ∧
      (∃ pointer data, Call.ClearImageBuffer pointer data ∈ calls) ∧
      (∃ pointer data, Call.UpdateFrameConstantBuffer pointer data ∈ calls) ∧
      ∀ pointer data,
        Call.ClearImageBuffer pointer data ∈ calls ∨
          Call.UpdateFrameConstantBuffer pointer data ∈ calls →
        data.constantData_frame.g_elapsedSecondCount_systemTime = sys ∧
        data.constantData_frame.g_elapsedSecondCount_simulationTime = sim ∧
        data.backBufferColor.R = r ∧ data.backBufferColor.G = g ∧
        data.backBufferColor.B = b ∧ data.backBufferColor.A = a := by
  obtain ⟨waited, hw⟩ := waitSucceeds_elim ev _ osWait hwait
  refine ⟨_, _, RenderFrame_eq_of_succeeds ev _ osWait osSignal waited hw hraise, ?_, ?_, ?_⟩
  · exact ⟨_, _, List.mem_append_right _ (List.mem_append_left _ (List.Mem.head _))⟩
  · exact ⟨_, _, List.mem_append_right _
      (List.mem_append_left _ (List.Mem.tail _ (List.Mem.tail _ (List.Mem.head _))))⟩
  · intro pointer data h
    obtain ⟨rest, hpass, hrest⟩ := renderPass_view (handedOver
      (SignalThatAllDataForAFrameHasBeenSubmitted ev
        (SubmitBackBufferColor (SubmitElapsedTime s sys sim) r g b a) osSubmit).2 waited
      (ev.Signal (SignalThatAllDataForAFrameHasBeenSubmitted ev
        (SubmitBackBufferColor (SubmitElapsedTime s sys sim) r g b a)
        osSubmit).2.s_whenDataForANewFrameCanBeSubmittedFromApplicationThread osSignal).2)
    rw [hpass] at h
    have hd : data = ⟨⟨sys, sim⟩, ⟨r, g, b, a⟩⟩ := by
      rcases h with h | h
      · simp only [List.mem_append, List.mem_cons, List.mem_singleton, List.not_mem_nil,
          or_false, reduceCtorEq, false_or, Call.ClearImageBuffer.injEq] at h
        rcases h with h | h
        · rw [h.2]
          simp [handedOver, SignalThatAllDataForAFrameHasBeenSubmitted, SubmitBackBufferColor,
            SubmitElapsedTime]
        · simpa [Call.frameData] using hrest _ h
      · simp only [List.mem_append, List.mem_cons, List.mem_singleton, List.not_mem_nil,
          or_false, reduceCtorEq, false_or, Call.UpdateFrameConstantBuffer.injEq] at h
        rcases h with h | h
        · rw [h.2]
          simp [handedOver, SignalThatAllDataForAFrameHasBeenSubmitted, SubmitBackBufferColor,
            SubmitElapsedTime]
        · simpa [Call.frameData] using hrest _ h
    subst hd
    exact ⟨rfl, rfl, rfl, rfl, rfl, rfl⟩

/-- After a successful `Initialize` both events have been constructed with
success, the submitted-event automatically reset and initially down, the
ready-event automatically reset and initially up, the effects and the meshes
have been created, and nothing else of the file-scope variables has
changed. -/
theorem Initialize_success (ev : cEventInterface E) (s : sStatic F E)
    (os : sInitializationOutcomes) (h : (Initialize ev s os).1.IsSuccess = true) :
    (Initialize ev s os).2.1 =
      { s with
        s_whenAllDataHasBeenSubmittedFromApplicationThread := (ev.Initialize s.s_whenAllDataHasBeenSubmittedFromApplicationThread
          EventType.ResetAutomaticallyAfterBeingSignaled defaultInitialState
          os.s_whenAllDataHasBeenSubmittedFromApplicationThread_Initialize).2
        s_whenDataForANewFrameCanBeSubmittedFromApplicationThread := (ev.Initialize s.s_whenDataForANewFrameCanBeSubmittedFromApplicationThread
          EventType.ResetAutomaticallyAfterBeingSignaled EventState.Signaled
          os.s_whenDataForANewFrameCanBeSubmittedFromApplicationThread_Initialize).2
        s_mesh_1 := ePointer.created
        s_mesh_2 := ePointer.created
        s_effect_1 := ePointer.created
        s_effect_2 := ePointer.created } ∧
    (ev.Initialize s.s_whenAllDataHasBeenSubmittedFromApplicationThread
          EventType.ResetAutomaticallyAfterBeingSignaled defaultInitialState
          os.s_whenAllDataHasBeenSubmittedFromApplicationThread_Initialize).1 = cResult.Success ∧
    (ev.Initialize s.s_whenDataForANewFrameCanBeSubmittedFromApplicationThread
          EventType.ResetAutomaticallyAfterBeingSignaled EventState.Signaled
          os.s_whenDataForANewFrameCanBeSubmittedFromApplicationThread_Initialize).1 = cResult.Success ∧
    InitCall.cEvent_Initialize eEvent.s_whenAllDataHasBeenSubmittedFromApplicationThread
      EventType.ResetAutomaticallyAfterBeingSignaled EventState.Unsignaled cResult.Success ∈
        (Initialize ev s os).2.2 ∧
    InitCall.cEvent_Initialize eEvent.s_whenDataForANewFrameCanBeSubmittedFromApplicationThread
      EventType.ResetAutomaticallyAfterBeingSignaled EventState.Signaled cResult.Success ∈
        (Initialize ev s os).2.2 := by
  revert h
  unfold Initialize defaultInitialState
  by_cases h1 :
    os.g_context_Initialize.IsSuccess = true
  swap
  · simp [h1]
  by_cases h2 :
    os.s_constantBuffer_frame_Initialize.IsSuccess = true
  swap
  · simp [h1, h2]
  by_cases h3 :
    (ev.Initialize s.s_whenAllDataHasBeenSubmittedFromApplicationThread
      EventType.ResetAutomaticallyAfterBeingSignaled EventState.Unsignaled
      os.s_whenAllDataHasBeenSubmittedFromApplicationThread_Initialize).1.IsSuccess = true
  swap
  · simp [h1, h2, h3]
  by_cases h4 :
    (ev.Initialize s.s_whenDataForANewFrameCanBeSubmittedFromApplicationThread
      EventType.ResetAutomaticallyAfterBeingSignaled EventState.Signaled
      os.s_whenDataForANewFrameCanBeSubmittedFromApplicationThread_Initialize).1.IsSuccess = true
  swap
  · simp [h1, h2, h3, h4]
  by_cases h5 :
    os.s_view_InitializeViews.IsSuccess = true
  swap
  · simp [h1, h2, h3, h4, h5]
  by_cases h6 :
    os.CreateEffect_1.IsSuccess = true
  swap
  · simp [h1, h2, h3, h4, h5, h6]
  by_cases h7 :
    os.CreateEffect_2.IsSuccess = true
  swap
  · simp [h1, h2, h3, h4, h5, h6, h7]
  by_cases h8 :
    os.CreateMesh_1.IsSuccess = true
  swap
  · simp [h1, h2, h3, h4, h5, h6, h7, h8]
  by_cases h9 :
    os.CreateMesh_2.IsSuccess = true
  swap
  · simp [h1, h2, h3, h4, h5, h6, h7, h8, h9]
  simp [h1, h2, h3, h4, h5, h6, h7, h8, h9]
  rw [cResult_IsSuccess_iff] at h3 h4
  exact ⟨h3, h4, h3.symm, h4.symm⟩

/-- The calls of `Initialize` on the two events and what follows a failed one. -/
theorem Initialize_event_calls (ev : cEventInterface E) (s : sStatic F E)
    (os : sInitializationOutcomes) :
    (∀ type state result,
      InitCall.cEvent_Initialize eEvent.s_whenAllDataHasBeenSubmittedFromApplicationThread
        type state result ∈ (Initialize ev s os).2.2 →
      result = (ev.Initialize s.s_whenAllDataHasBeenSubmittedFromApplicationThread
          EventType.ResetAutomaticallyAfterBeingSignaled defaultInitialState
          os.s_whenAllDataHasBeenSubmittedFromApplicationThread_Initialize).1) ∧
    (∀ type state result,
      InitCall.cEvent_Initialize eEvent.s_whenDataForANewFrameCanBeSubmittedFromApplicationThread
        type state result ∈ (Initialize ev s os).2.2 →
      result = (ev.Initialize s.s_whenDataForANewFrameCanBeSubmittedFromApplicationThread
          EventType.ResetAutomaticallyAfterBeingSignaled EventState.Signaled
          os.s_whenDataForANewFrameCanBeSubmittedFromApplicationThread_Initialize).1 ∧
      (ev.Initialize s.s_whenAllDataHasBeenSubmittedFromApplicationThread
          EventType.ResetAutomaticallyAfterBeingSignaled defaultInitialState
          os.s_whenAllDataHasBeenSubmittedFromApplicationThread_Initialize).1.IsSuccess = true) ∧
    ((ev.Initialize s.s_whenAllDataHasBeenSubmittedFromApplicationThread
          EventType.ResetAutomaticallyAfterBeingSignaled defaultInitialState
          os.s_whenAllDataHasBeenSubmittedFromApplicationThread_Initialize).1.IsSuccess = false →
      (∀ c ∈ (Initialize ev s os).2.2, c.isAfterTheEvents = false) ∧
      ((∃ type state result,
        InitCall.cEvent_Initialize eEvent.s_whenAllDataHasBeenSubmittedFromApplicationThread
          type state result ∈ (Initialize ev s os).2.2) →
        (Initialize ev s os).1 = (ev.Initialize s.s_whenAllDataHasBeenSubmittedFromApplicationThread
          EventType.ResetAutomaticallyAfterBeingSignaled defaultInitialState
          os.s_whenAllDataHasBeenSubmittedFromApplicationThread_Initialize).1)) ∧
    ((ev.Initialize s.s_whenDataForANewFrameCanBeSubmittedFromApplicationThread
          EventType.ResetAutomaticallyAfterBeingSignaled EventState.Signaled
          os.s_whenDataForANewFrameCanBeSubmittedFromApplicationThread_Initialize).1.IsSuccess = false →
      (∀ c ∈ (Initialize ev s os).2.2, c.isAfterTheEvents = false) ∧
      ((∃ type state result,
        InitCall.cEvent_Initialize eEvent.s_whenDataForANewFrameCanBeSubmittedFromApplicationThread
          type state result ∈ (Initialize ev s os).2.2) →
        (Initialize ev s os).1 = (ev.Initialize s.s_whenDataForANewFrameCanBeSubmittedFromApplicationThread
          EventType.ResetAutomaticallyAfterBeingSignaled EventState.Signaled
          os.s_whenDataForANewFrameCanBeSubmittedFromApplicationThread_Initialize).1)) := by
  unfold Initialize defaultInitialState
  by_cases h1 :
    os.g_context_Initialize.IsSuccess = true
  swap
  · simp [h1, InitCall.isAfterTheEvents]
  by_cases h2 :
    os.s_constantBuffer_frame_Initialize.IsSuccess = true
  swap
  · simp [h1, h2, InitCall.isAfterTheEvents]
  by_cases h3 :
    (ev.Initialize s.s_whenAllDataHasBeenSubmittedFromApplicationThread
      EventType.ResetAutomaticallyAfterBeingSignaled EventState.Unsignaled
      os.s_whenAllDataHasBeenSubmittedFromApplicationThread_Initialize).1.IsSuccess = true
  swap
  · simp [h1, h2, h3, InitCall.isAfterTheEvents]
  by_cases h4 :
    (ev.Initialize s.s_whenDataForANewFrameCanBeSubmittedFromApplicationThread
      EventType.ResetAutomaticallyAfterBeingSignaled EventState.Signaled
      os.s_whenDataForANewFrameCanBeSubmittedFromApplicationThread_Initialize).1.IsSuccess = true
  swap
  · simp [h1, h2, h3, h4, InitCall.isAfterTheEvents]
  by_cases h5 :
    os.s_view_InitializeViews.IsSuccess = true
  swap
  · simp [h1, h2, h3, h4, h5, InitCall.isAfterTheEvents]
  by_cases h6 :
    os.CreateEffect_1.IsSuccess = true
  swap
  · simp [h1, h2, h3, h4, h5, h6, InitCall.isAfterTheEvents]
  by_cases h7 :
    os.CreateEffect_2.IsSuccess = true
  swap
  · simp [h1, h2, h3, h4, h5, h6, h7, InitCall.isAfterTheEvents]
  by_cases h8 :
    os.CreateMesh_1.IsSuccess = true
  swap
  · simp [h1, h2, h3, h4, h5, h6, h7, h8, InitCall.isAfterTheEvents]
  by_cases h9 :
    os.CreateMesh_2.IsSuccess = true
  swap
  · simp [h1, h2, h3, h4, h5, h6, h7, h8, h9, InitCall.isAfterTheEvents]
  simp [h1, h2, h3, h4, h5, h6, h7, h8, h9, InitCall.isAfterTheEvents]

/-- Whatever its calls answer, `Initialize` leaves the two pointers into the
array as they are. -/
theorem Initialize_pointers (ev : cEventInterface E) (s : sStatic F E)
    (os : sInitializationOutcomes) :
    (Initialize ev s os).2.1.s_dataBeingSubmittedByApplicationThread =
      s.s_dataBeingSubmittedByApplicationThread ∧
    (Initialize ev s os).2.1.s_dataBeingRenderedByRenderThread =
      s.s_dataBeingRenderedByRenderThread := by
  unfold Initialize defaultInitialState
  by_cases h1 : os.g_context_Initialize.IsSuccess = true
  swap
  · simp [h1]
  by_cases h2 : os.s_constantBuffer_frame_Initialize.IsSuccess = true
  swap
  · simp [h1, h2]
  by_cases h3 :
    (ev.Initialize s.s_whenAllDataHasBeenSubmittedFromApplicationThread
      EventType.ResetAutomaticallyAfterBeingSignaled EventState.Unsignaled
      os.s_whenAllDataHasBeenSubmittedFromApplicationThread_Initialize).1.IsSuccess = true
  swap
  · simp [h1, h2, h3]
  by_cases h4 :
    (ev.Initialize s.s_whenDataForANewFrameCanBeSubmittedFromApplicationThread
      EventType.ResetAutomaticallyAfterBeingSignaled EventState.Signaled
      os.s_whenDataForANewFrameCanBeSubmittedFromApplicationThread_Initialize).1.IsSuccess = true
  swap
  · simp [h1, h2, h3, h4]
  by_cases h5 : os.s_view_InitializeViews.IsSuccess = true
  swap
  · simp [h1, h2, h3, h4, h5]
  by_cases h6 : os.CreateEffect_1.IsSuccess = true
  swap
  · simp [h1, h2, h3, h4, h5, h6]
  by_cases h7 : os.CreateEffect_2.IsSuccess = true
  swap
  · simp [h1, h2, h3, h4, h5, h6, h7]
  by_cases h8 : os.CreateMesh_1.IsSuccess = true
  swap
  · simp [h1, h2, h3, h4, h5, h6, h7, h8]
  by_cases h9 : os.CreateMesh_2.IsSuccess = true
  swap
  · simp [h1, h2, h3, h4, h5, h6, h7, h8, h9]
  simp [h1, h2, h3, h4, h5, h6, h7, h8, h9]

/-- A call of the interface keeps the two pointers or exchanges them. -/
theorem runOperation_pointers (ev : cEventInterface E) (s s' : sStatic F E)
    (op : Operation F) (h : runOperation ev s op = some s') :
    (s'.s_dataBeingSubmittedByApplicationThread = s.s_dataBeingSubmittedByApplicationThread ∧
      s'.s_dataBeingRenderedByRenderThread = s.s_dataBeingRenderedByRenderThread) ∨
    (s'.s_dataBeingSubmittedByApplicationThread = s.s_dataBeingRenderedByRenderThread ∧
      s'.s_dataBeingRenderedByRenderThread = s.s_dataBeingSubmittedByApplicationThread) := by
  cases op with
  | Initialize os =>
    simp only [runOperation, Option.some.injEq] at h
    subst h
    exact Or.inl (Initialize_pointers ev s os)
  | SubmitElapsedTime sys sim =>
    simp only [runOperation, Option.some.injEq] at h
    subst h
    exact Or.inl ⟨rfl, rfl⟩
  | SubmitBackBufferColor r g b a =>
    simp only [runOperation, Option.some.injEq] at h
    subst h
    exact Or.inl ⟨rfl, rfl⟩
  | WaitUntilDataForANewFrameCanBeSubmitted t os =>
    simp only [runOperation, WaitUntilDataForANewFrameCanBeSubmitted] at h
    cases hw : ev.WaitForEvent s.s_whenDataForANewFrameCanBeSubmittedFromApplicationThread t os with
    | none => simp [hw] at h
    | some x =>
      simp [hw] at h
      subst h
      exact Or.inl ⟨rfl, rfl⟩
  | SignalThatAllDataForAFrameHasBeenSubmitted os =>
    simp only [runOperation, Option.some.injEq] at h
    subst h
    exact Or.inl ⟨rfl, rfl⟩
  | RenderFrame osWait osSignal =>
    simp only [runOperation, RenderFrame] at h
    cases hw : ev.WaitForEvent s.s_whenAllDataHasBeenSubmittedFromApplicationThread
        Constants.DontTimeOut osWait with
    | none => simp [hw] at h
    | some x =>
      simp only [hw] at h
      split at h
      · split at h
        · simp only [Option.map_some', Option.some.injEq] at h
          subst h
          exact Or.inr ⟨rfl, rfl⟩
        · simp only [Option.map_some', Option.some.injEq] at h
          subst h
          exact Or.inr ⟨rfl, rfl⟩
      · simp only [Option.map_some', Option.some.injEq] at h
        subst h
        exact Or.inl ⟨rfl, rfl⟩

/-- Two different pointers into a two-element array designate each instance
exactly once. -/
theorem HandlesDisjoint_of_ne (s : sStatic F E)
    (h : s.s_dataBeingSubmittedByApplicationThread ≠ s.s_dataBeingRenderedByRenderThread) :
    HandlesDisjoint s := by
  refine ⟨h, fun i => ?_⟩
  revert h
  generalize s.s_dataBeingSubmittedByApplicationThread = p
  generalize s.s_dataBeingRenderedByRenderThread = q
  revert p q i
  decide

/-- The double-buffer invariant is kept by every sequence of calls. -/
theorem runOperations_HandlesDisjoint (ev : cEventInterface E) (ops : List (Operation F)) :
    ∀ s s' : sStatic F E, HandlesDisjoint s → runOperations ev s ops = some s' →
      HandlesDisjoint s' := by
  induction ops with
  | nil =>
    intro s s' hs h
    simp only [runOperations, Option.some.injEq] at h
    exact h ▸ hs
  | cons op ops ih =>
    intro s s' hs h
    simp only [runOperations] at h
    cases hop : runOperation ev s op with
    | none => simp [hop] at h
    | some s1 =>
      simp only [hop] at h
      refine ih s1 s' (HandlesDisjoint_of_ne s1 ?_) h
      rcases runOperation_pointers ev s s1 op hop with ⟨h1, h2⟩ | ⟨h1, h2⟩
      · rw [h1, h2]
        exact hs.1
      · rw [h1, h2]
        exact Ne.symm hs.1

/-- C7. `SubmitElapsedTime` sets the two elapsed-time members of the instance
the submit pointer designates to its arguments and `SubmitBackBufferColor`
sets the four color channels of that instance to `r g b a` as they are given;
each leaves the other members of that instance, every other instance, both
pointers and both events unchanged. The instance the render pointer designates
is unchanged whenever the two pointers differ, and so in every state the
program reaches from its start by calls of the interface.
`WaitUntilDataForANewFrameCanBeSubmitted` and
`SignalThatAllDataForAFrameHasBeenSubmitted` change neither the frame data nor
the pointers. This holds for every implementation of the event primitive. -/
theorem producer_writes_confined_to_submit_slot (ev : cEventInterface E) (s : sStatic F E)
    (sys sim r g b a : F) (t : Nat) (os : cResult) :
    ((SubmitElapsedTime s sys sim).s_dataRequiredToRenderAFrame
        s.s_dataBeingSubmittedByApplicationThread =
      { constantData_frame :=
          { g_elapsedSecondCount_systemTime := sys, g_elapsedSecondCount_simulationTime := sim }
        backBufferColor :=
          (s.s_dataRequiredToRenderAFrame s.s_dataBeingSubmittedByApplicationThread).backBufferColor } ∧
      (∀ i, i ≠ s.s_dataBeingSubmittedByApplicationThread →
        (SubmitElapsedTime s sys sim).s_dataRequiredToRenderAFrame i =
          s.s_dataRequiredToRenderAFrame i) ∧
      (s.s_dataBeingSubmittedByApplicationThread ≠ s.s_dataBeingRenderedByRenderThread →
        (SubmitElapsedTime s sys sim).s_dataRequiredToRenderAFrame
            s.s_dataBeingRenderedByRenderThread =
          s.s_dataRequiredToRenderAFrame s.s_dataBeingRenderedByRenderThread) ∧
      (SubmitElapsedTime s sys sim).s_dataBeingSubmittedByApplicationThread =
        s.s_dataBeingSubmittedByApplicationThread ∧
      (SubmitElapsedTime s sys sim).s_dataBeingRenderedByRenderThread =
        s.s_dataBeingRenderedByRenderThread ∧
      (SubmitElapsedTime s sys sim).s_whenAllDataHasBeenSubmittedFromApplicationThread =
        s.s_whenAllDataHasBeenSubmittedFromApplicationThread ∧
      (SubmitElapsedTime s sys sim).s_whenDataForANewFrameCanBeSubmittedFromApplicationThread =
        s.s_whenDataForANewFrameCanBeSubmittedFromApplicationThread) ∧
    ((SubmitBackBufferColor s r g b a).s_dataRequiredToRenderAFrame
        s.s_dataBeingSubmittedByApplicationThread =
      { constantData_frame :=
          (s.s_dataRequiredToRenderAFrame
            s.s_dataBeingSubmittedByApplicationThread).constantData_frame
        backBufferColor := { R := r, G := g, B := b, A := a } } ∧
      (∀ i, i ≠ s.s_dataBeingSubmittedByApplicationThread →
        (SubmitBackBufferColor s r g b a).s_dataRequiredToRenderAFrame i =
          s.s_dataRequiredToRenderAFrame i) ∧
      (s.s_dataBeingSubmittedByApplicationThread ≠ s.s_dataBeingRenderedByRenderThread →
        (SubmitBackBufferColor s r g b a).s_dataRequiredToRenderAFrame
            s.s_dataBeingRenderedByRenderThread =
          s.s_dataRequiredToRenderAFrame s.s_dataBeingRenderedByRenderThread) ∧
      (SubmitBackBufferColor s r g b a).s_dataBeingSubmittedByApplicationThread =
        s.s_dataBeingSubmittedByApplicationThread ∧
      (SubmitBackBufferColor s r g b a).s_dataBeingRenderedByRenderThread =
        s.s_dataBeingRenderedByRenderThread ∧
      (SubmitBackBufferColor s r g b a).s_whenAllDataHasBeenSubmittedFromApplicationThread =
        s.s_whenAllDataHasBeenSubmittedFromApplicationThread ∧
      (SubmitBackBufferColor s r g b a).s_whenDataForANewFrameCanBeSubmittedFromApplicationThread =
        s.s_whenDataForANewFrameCanBeSubmittedFromApplicationThread) ∧
    (∀ result s', WaitUntilDataForANewFrameCanBeSubmitted ev s t os = some (result, s') →
      s'.s_dataRequiredToRenderAFrame = s.s_dataRequiredToRenderAFrame ∧
      s'.s_dataBeingSubmittedByApplicationThread = s.s_dataBeingSubmittedByApplicationThread ∧
      s'.s_dataBeingRenderedByRenderThread = s.s_dataBeingRenderedByRenderThread) ∧
    ((SignalThatAllDataForAFrameHasBeenSubmitted ev s os).2.s_dataRequiredToRenderAFrame =
        s.s_dataRequiredToRenderAFrame ∧
      (SignalThatAllDataForAFrameHasBeenSubmitted ev s os).2.s_dataBeingSubmittedByApplicationThread =
        s.s_dataBeingSubmittedByApplicationThread ∧
      (SignalThatAllDataForAFrameHasBeenSubmitted ev s os).2.s_dataBeingRenderedByRenderThread =
        s.s_dataBeingRenderedByRenderThread) ∧
    (∀ (d0 d1 : sDataRequiredToRenderAFrame F) (e0 e1 : E) (ops : List (Operation F)),
      runOperations ev (staticInitializer d0 d1 e0 e1) ops = some s →
      (SubmitElapsedTime s sys sim).s_dataRequiredToRenderAFrame
          s.s_dataBeingRenderedByRenderThread =
        s.s_dataRequiredToRenderAFrame s.s_dataBeingRenderedByRenderThread ∧
      (SubmitBackBufferColor s r g b a).s_dataRequiredToRenderAFrame
          s.s_dataBeingRenderedByRenderThread =
        s.s_dataRequiredToRenderAFrame s.s_dataBeingRenderedByRenderThread) := by
  refine ⟨⟨?_, ?_, ?_, rfl, rfl, rfl, rfl⟩, ⟨?_, ?_, ?_, rfl, rfl, rfl, rfl⟩, ?_,
    ⟨rfl, rfl, rfl⟩, ?_⟩
  · simp [SubmitElapsedTime]
  · intro i hi
    simp [SubmitElapsedTime, Function.update_noteq hi]
  · intro h
    simp [SubmitElapsedTime, Function.update_noteq (Ne.symm h)]
  · simp [SubmitBackBufferColor]
  · intro i hi
    simp [SubmitBackBufferColor, Function.update_noteq hi]
  · intro h
    simp [SubmitBackBufferColor, Function.update_noteq (Ne.symm h)]
  · intro result s' h
    unfold WaitUntilDataForANewFrameCanBeSubmitted at h
    cases hw : ev.WaitForEvent s.s_whenDataForANewFrameCanBeSubmittedFromApplicationThread t os with
    | none => simp [hw] at h
    | some x =>
      simp [hw] at h
      obtain ⟨_, rfl⟩ := h
      exact ⟨rfl, rfl, rfl⟩
  · intro d0 d1 e0 e1 ops hops
    have hne := (runOperations_HandlesDisjoint ev ops _ s
      (HandlesDisjoint_of_ne _ (by simp [staticInitializer])) hops).1
    constructor
    · simp [SubmitElapsedTime, Function.update_noteq (Ne.symm hne)]
    · simp [SubmitBackBufferColor, Function.update_noteq (Ne.symm hne)]

/-- C2. The double-buffer invariant holds in the state the program starts in,
whatever the two instances and the two events hold (so also once `Initialize`
has constructed the events), and in every state reached from it by a finite
sequence of calls of `SubmitElapsedTime`, `SubmitBackBufferColor`,
`WaitUntilDataForANewFrameCanBeSubmitted`,
`SignalThatAllDataForAFrameHasBeenSubmitted` and `RenderFrame`, and of
`Initialize` among them, with any arguments, any answers of the operating
system and any implementation of the event primitive: the submit pointer and
the render pointer differ, and each of the two instances is designated by
exactly one of them. -/
theorem handles_disjoint_invariant (ev : cEventInterface E)
    (d0 d1 : sDataRequiredToRenderAFrame F) (e0 e1 : E)
    (ops : List (Operation F)) (s' : sStatic F E)
    (h : runOperations ev (staticInitializer d0 d1 e0 e1) ops = some s') :
    HandlesDisjoint s' :=
  runOperations_HandlesDisjoint ev ops _ s'
    (HandlesDisjoint_of_ne _ (by simp [staticInitializer])) h

/-- C9. In `Initialize`, when the construction of the submitted-event is
attempted and fails, `Initialize` returns the failing result and the
construction of the ready-event is not attempted; when the construction of the
ready-event is attempted and fails, `Initialize` returns that failing result;
in both cases none of the later start-up steps (views, effects, meshes) is
made. When `Initialize` returns success, both events have been constructed
successfully, automatically reset, the submitted-event initially down and the
ready-event initially up. This holds for every implementation of the event
primitive. -/
theorem Initialize_fails_when_signal_construction_fails (ev : cEventInterface E)
    (s : sStatic F E) (os : sInitializationOutcomes) :
    (∀ type state result,
      InitCall.cEvent_Initialize eEvent.s_whenAllDataHasBeenSubmittedFromApplicationThread
        type state result ∈ (Initialize ev s os).2.2 →
      result.IsSuccess = false →
      (Initialize ev s os).1 = result ∧
      (∀ c ∈ (Initialize ev s os).2.2, c.isAfterTheEvents = false) ∧
      ∀ type' state' result',
        InitCall.cEvent_Initialize eEvent.s_whenDataForANewFrameCanBeSubmittedFromApplicationThread
          type' state' result' ∉ (Initialize ev s os).2.2) ∧
    (∀ type state result,
      InitCall.cEvent_Initialize eEvent.s_whenDataForANewFrameCanBeSubmittedFromApplicationThread
        type state result ∈ (Initialize ev s os).2.2 →
      result.IsSuccess = false →
      (Initialize ev s os).1 = result ∧
      ∀ c ∈ (Initialize ev s os).2.2, c.isAfterTheEvents = false) ∧
    ((Initialize ev s os).1.IsSuccess = true →
      InitCall.cEvent_Initialize eEvent.s_whenAllDataHasBeenSubmittedFromApplicationThread
        EventType.ResetAutomaticallyAfterBeingSignaled EventState.Unsignaled cResult.Success ∈
          (Initialize ev s os).2.2 ∧
      InitCall.cEvent_Initialize eEvent.s_whenDataForANewFrameCanBeSubmittedFromApplicationThread
        EventType.ResetAutomaticallyAfterBeingSignaled EventState.Signaled cResult.Success ∈
          (Initialize ev s os).2.2) := by
  obtain ⟨hsub, hready, hsubFails, hreadyFails⟩ := Initialize_event_calls ev s os
  refine ⟨?_, ?_, ?_⟩
  · intro type state result hmem hres
    have hr := hsub type state result hmem
    subst hr
    obtain ⟨hlater, hreturn⟩ := hsubFails hres
    refine ⟨hreturn ⟨type, state, _, hmem⟩, hlater, ?_⟩
    intro type' state' result' hmem'
    have := (hready type' state' result' hmem').2
    simp [hres] at this
  · intro type state result hmem hres
    have hr := (hready type state result hmem).1
    subst hr
    obtain ⟨hlater, hreturn⟩ := hreadyFails hres
    exact ⟨hreturn ⟨type, state, _, hmem⟩, hlater⟩
  · intro h
    obtain ⟨-, -, -, hm1, hm2⟩ := Initialize_success ev s os h
    exact ⟨hm1, hm2⟩

/-- After a successful `Initialize` with the event primitive of the spec, the
submitted-event is automatically reset and down, the ready-event is
automatically reset and up, and the effects and the meshes are created. -/
theorem Initialize_specified (s : sStatic F cEvent) (os : sInitializationOutcomes)
    (h : (Initialize specified s os).1.IsSuccess = true) :
    (Initialize specified s os).2.1 =
      { s with
        s_whenAllDataHasBeenSubmittedFromApplicationThread :=
          { type := EventType.ResetAutomaticallyAfterBeingSignaled
            state := EventState.Unsignaled }
        s_whenDataForANewFrameCanBeSubmittedFromApplicationThread :=
          { type := EventType.ResetAutomaticallyAfterBeingSignaled
            state := EventState.Signaled }
        s_mesh_1 := ePointer.created
        s_mesh_2 := ePointer.created
        s_effect_1 := ePointer.created
        s_effect_2 := ePointer.created } := by
  obtain ⟨hs, h3, h4, -, -⟩ := Initialize_success specified s os h
  rw [hs]
  cases h3' : os.s_whenAllDataHasBeenSubmittedFromApplicationThread_Initialize <;>
    cases h4' : os.s_whenDataForANewFrameCanBeSubmittedFromApplicationThread_Initialize <;>
    simp_all [specified, cEvent.Initialize, cResult.IsSuccess, defaultInitialState]

/-- C8. Initial state and scenario B, with the event primitive of the spec.
After `Initialize` has returned success (from any state, with any answers of
its collaborators) and before any `RenderFrame`, the ready-event is
automatically reset and up; a first
`WaitUntilDataForANewFrameCanBeSubmitted 0` returns success and a second one
right after it returns `TimedOut`, which is neither success nor an error
(the operating system answering both waits without fault). -/
theorem scenario_B_second_wait_times_out (s : sStatic F cEvent) (os : sInitializationOutcomes)
    (h : (Initialize specified s os).1.IsSuccess = true) :
    (Initialize specified s os).2.1.s_whenDataForANewFrameCanBeSubmittedFromApplicationThread =
      { type := EventType.ResetAutomaticallyAfterBeingSignaled, state := EventState.Signaled } ∧
    ∃ s1 s2 : sStatic F cEvent,
      WaitUntilDataForANewFrameCanBeSubmitted specified (Initialize specified s os).2.1 0
        cResult.Success = some (cResult.Success, s1) ∧
      WaitUntilDataForANewFrameCanBeSubmitted specified s1 0 cResult.Success =
        some (cResult.TimedOut, s2) ∧
      cResult.TimedOut ≠ cResult.Success ∧
      cResult.TimedOut.IsSuccess = false ∧
      ∀ code, cResult.TimedOut ≠ cResult.Failure code := by
  rw [Initialize_specified s os h]
  refine ⟨rfl, _, _, rfl, rfl, ?_, rfl, ?_⟩
  · simp
  · intro code
    simp

/-- C6. When the wait on the submitted-event succeeds and the raise of the
ready-event fails, `RenderFrame` takes the fatal path after the swap, for every
implementation of the event primitive: the calls made are the wait, one swap,
the failed raise and the three calls of the error path, none of them to the
consumer backend; the pointers at the return are the pointers at entry,
exchanged; the frame data is unchanged; the ready-event is what the failed
raise left of it. With the event primitive of the spec, a failed raise leaves
the ready-event as it was at entry, so a later
`WaitUntilDataForANewFrameCanBeSubmitted` answers what it would have answered
before the iteration, and does not answer success when the ready-event was
down at entry. -/
theorem RenderFrame_fatal_on_failed_release :
    (∀ (E : Type) (ev : cEventInterface E) (s : sStatic F E) (osWait osSignal : cResult),
      waitSucceeds ev s osWait = true → raiseSucceeds ev s osSignal = false →
      ∃ (s' : sStatic F E) (calls : List (Call F)) (result : cResult),
        RenderFrame ev s osWait osSignal = some (s', calls) ∧
        calls = [ Call.WaitForEvent eEvent.s_whenAllDataHasBeenSubmittedFromApplicationThread
            cResult.Success,
          Call.swap,
          Call.Signal eEvent.s_whenDataForANewFrameCanBeSubmittedFromApplicationThread result,
          Call.ASSERTF, Call.OutputError, Call.Print ] ∧
        result.IsSuccess = false ∧
        s'.s_dataBeingRenderedByRenderThread = s.s_dataBeingSubmittedByApplicationThread ∧
        s'.s_dataBeingSubmittedByApplicationThread = s.s_dataBeingRenderedByRenderThread ∧
        s'.s_dataRequiredToRenderAFrame = s.s_dataRequiredToRenderAFrame ∧
        s'.s_whenDataForANewFrameCanBeSubmittedFromApplicationThread =
          (ev.Signal s.s_whenDataForANewFrameCanBeSubmittedFromApplicationThread osSignal).2 ∧
        ∀ c ∈ calls, c.isConsumerBackend = false) ∧
    ∀ (s : sStatic F cEvent) (osWait osSignal : cResult),
      waitSucceeds specified s osWait = true → raiseSucceeds specified s osSignal = false →
      ∃ (s' : sStatic F cEvent) (calls : List (Call F)),
        RenderFrame specified s osWait osSignal = some (s', calls) ∧
        s'.s_whenDataForANewFrameCanBeSubmittedFromApplicationThread =
          s.s_whenDataForANewFrameCanBeSubmittedFromApplicationThread ∧
        (∀ (t : Nat) (os : cResult),
          (WaitUntilDataForANewFrameCanBeSubmitted specified s' t os).map Prod.fst =
            (WaitUntilDataForANewFrameCanBeSubmitted specified s t os).map Prod.fst) ∧
        (s.s_whenDataForANewFrameCanBeSubmittedFromApplicationThread.state =
            EventState.Unsignaled →
          ∀ (t : Nat) (os : cResult) (s'' : sStatic F cEvent),
            WaitUntilDataForANewFrameCanBeSubmitted specified s' t os ≠
              some (cResult.Success, s'')) := by
  constructor
  · intro E ev s osWait osSignal hwait hraise
    obtain ⟨waited, hw⟩ := waitSucceeds_elim ev s osWait hwait
    refine ⟨_, _, _, RenderFrame_eq_of_raiseFails ev s osWait osSignal waited hw hraise, rfl,
      hraise, rfl, rfl, rfl, rfl, ?_⟩
    intro c hc
    simp at hc
    rcases hc with rfl | rfl | rfl | rfl | rfl | rfl <;> rfl
  · intro s osWait osSignal hwait hraise
    obtain ⟨waited, hw⟩ := waitSucceeds_elim specified s osWait hwait
    have hsame : (specified.Signal s.s_whenDataForANewFrameCanBeSubmittedFromApplicationThread
        osSignal).2 = s.s_whenDataForANewFrameCanBeSubmittedFromApplicationThread := by
      cases osSignal <;> simp_all [raiseSucceeds, specified, cEvent.Signal, cResult.IsSuccess]
    refine ⟨_, _, RenderFrame_eq_of_raiseFails specified s osWait osSignal waited hw hraise,
      hsame, ?_, ?_⟩
    · intro t os
      simp only [WaitUntilDataForANewFrameCanBeSubmitted, handedOver, hsame]
      cases specified.WaitForEvent s.s_whenDataForANewFrameCanBeSubmittedFromApplicationThread
        t os <;> rfl
    · intro hdown t os s''
      simp only [WaitUntilDataForANewFrameCanBeSubmitted, handedOver, hsame]
      by_cases ht : t = Constants.DontTimeOut <;>
        cases os <;>
        simp [specified, WaitForEvent, hdown, ht, cResult.IsSuccess]

/-- The `Submit` calls of one frame overwrite the instance the submit pointer
designates as `written` says, and nothing else. -/
theorem submitFrame_data (s : sStatic F E) (frame : sSubmittedFrame F) :
    (submitFrame s frame).s_dataRequiredToRenderAFrame =
      Function.update s.s_dataRequiredToRenderAFrame s.s_dataBeingSubmittedByApplicationThread
        (written (s.s_dataRequiredToRenderAFrame s.s_dataBeingSubmittedByApplicationThread)
          frame) ∧
    (submitFrame s frame).s_dataBeingSubmittedByApplicationThread =
      s.s_dataBeingSubmittedByApplicationThread ∧
    (submitFrame s frame).s_dataBeingRenderedByRenderThread =
      s.s_dataBeingRenderedByRenderThread ∧
    (submitFrame s frame).s_whenAllDataHasBeenSubmittedFromApplicationThread =
      s.s_whenAllDataHasBeenSubmittedFromApplicationThread ∧
    (submitFrame s frame).s_whenDataForANewFrameCanBeSubmittedFromApplicationThread =
      s.s_whenDataForANewFrameCanBeSubmittedFromApplicationThread := by
  obtain ⟨t, time, color⟩ := frame
  cases time with
  | none =>
    cases color with
    | none => simp [submitFrame, written]
    | some c =>
      obtain ⟨r, g, b, a⟩ := c
      simp [submitFrame, written, SubmitBackBufferColor]
  | some e =>
    obtain ⟨sys, sim⟩ := e
    cases color with
    | none => simp [submitFrame, written, SubmitElapsedTime]
    | some c =>
      obtain ⟨r, g, b, a⟩ := c
      simp [submitFrame, written, SubmitBackBufferColor, SubmitElapsedTime]

/-- `RenderFrame` returns with the array of frame data unchanged. -/
theorem RenderFrame_data (ev : cEventInterface E) (s s' : sStatic F E)
    (osWait osSignal : cResult) (calls : List (Call F))
    (h : RenderFrame ev s osWait osSignal = some (s', calls)) :
    s'.s_dataRequiredToRenderAFrame = s.s_dataRequiredToRenderAFrame := by
  simp only [RenderFrame] at h
  cases hw : ev.WaitForEvent s.s_whenAllDataHasBeenSubmittedFromApplicationThread
      Constants.DontTimeOut osWait with
  | none => simp [hw] at h
  | some x =>
    simp only [hw] at h
    split at h
    · split at h <;>
      · simp only [Option.some.injEq, Prod.mk.injEq] at h
        rw [← h.1]
        rfl
    · simp only [Option.some.injEq, Prod.mk.injEq] at h
      rw [← h.1]

/-- One successful cycle: the render pass receives, twice, the instance the
submit pointer designated, written over by the frame; this is also what the
instance holds afterwards, and the pointers are exchanged. -/
theorem runCycle_data (ev : cEventInterface E) (s s' : sStatic F E) (frame : sSubmittedFrame F)
    (calls : List (Call F)) (h : runCycle ev s frame = some (s', calls)) :
    s'.s_dataRequiredToRenderAFrame =
      Function.update s.s_dataRequiredToRenderAFrame s.s_dataBeingSubmittedByApplicationThread
        (written (s.s_dataRequiredToRenderAFrame s.s_dataBeingSubmittedByApplicationThread)
          frame) ∧
    s'.s_dataBeingSubmittedByApplicationThread = s.s_dataBeingRenderedByRenderThread ∧
    s'.s_dataBeingRenderedByRenderThread = s.s_dataBeingSubmittedByApplicationThread ∧
    frameDataReceived calls =
      [ written (s.s_dataRequiredToRenderAFrame s.s_dataBeingSubmittedByApplicationThread) frame,
        written (s.s_dataRequiredToRenderAFrame s.s_dataBeingSubmittedByApplicationThread)
          frame ] := by
  unfold runCycle WaitUntilDataForANewFrameCanBeSubmitted at h
  cases hw : ev.WaitForEvent s.s_whenDataForANewFrameCanBeSubmittedFromApplicationThread
      frame.i_timeToWait_inMilliseconds cResult.Success with
  | none => simp [hw] at h
  | some x =>
    obtain ⟨result, event⟩ := x
    simp only [hw] at h
    split at h
    swap
    · simp at h
    split at h
    swap
    · simp at h
    rename_i hconds
    obtain ⟨-, hwait, hraise⟩ := hconds
    obtain ⟨waited, hwaited⟩ := waitSucceeds_elim ev _ _ hwait
    rw [RenderFrame_eq_of_succeeds ev _ _ _ waited hwaited hraise] at h
    simp only [Option.some.injEq, Prod.mk.injEq] at h
    obtain ⟨hs', hcalls⟩ := h
    obtain ⟨hdata, hsub, hren, -, -⟩ := submitFrame_data
      { s with s_whenDataForANewFrameCanBeSubmittedFromApplicationThread := event } frame
    subst hs' hcalls
    refine ⟨?_, ?_, ?_, ?_⟩
    · show (submitFrame _ frame).s_dataRequiredToRenderAFrame = _
      rw [hdata]
    · show (submitFrame _ frame).s_dataBeingRenderedByRenderThread = _
      rw [hren]
    · show (submitFrame _ frame).s_dataBeingSubmittedByApplicationThread = _
      rw [hsub]
    · have hd : (submitFrame
          { s with s_whenDataForANewFrameCanBeSubmittedFromApplicationThread := event }
          frame).s_dataRequiredToRenderAFrame
          (submitFrame
            { s with s_whenDataForANewFrameCanBeSubmittedFromApplicationThread := event }
            frame).s_dataBeingSubmittedByApplicationThread =
          written (s.s_dataRequiredToRenderAFrame s.s_dataBeingSubmittedByApplicationThread)
            frame := by
        rw [hdata, hsub]
        simp
      have hfirst : ∀ (a b : cResult) (l : List (Call F)),
          frameDataReceived
            ([ Call.WaitForEvent eEvent.s_whenAllDataHasBeenSubmittedFromApplicationThread a,
              Call.swap,
              Call.Signal eEvent.s_whenDataForANewFrameCanBeSubmittedFromApplicationThread b ] ++
              l) = frameDataReceived l := fun _ _ _ => rfl
      rw [hfirst, frameDataReceived_renderPass]
      simp only [handedOver, SignalThatAllDataForAFrameHasBeenSubmitted, hd]

/-- Successive successful cycles hand the render pass the frames of
`staleFrames`. -/
theorem runCycles_frameData (ev : cEventInterface E) (frames : List (sSubmittedFrame F)) :
    ∀ (s s' : sStatic F E) (logs : List (List (Call F))),
      s.s_dataBeingSubmittedByApplicationThread ≠ s.s_dataBeingRenderedByRenderThread →
      runCycles ev s frames = some (s', logs) →
      logs.map frameDataReceived =
        (staleFrames (s.s_dataRequiredToRenderAFrame s.s_dataBeingSubmittedByApplicationThread)
          (s.s_dataRequiredToRenderAFrame s.s_dataBeingRenderedByRenderThread) frames).map
          (fun d => [d, d]) := by
  induction frames with
  | nil =>
    intro s s' logs _ h
    simp only [runCycles, Option.some.injEq, Prod.mk.injEq] at h
    rw [← h.2]
    rfl
  | cons frame frames ih =>
    intro s s' logs hne h
    simp only [runCycles] at h
    cases hrun : runCycle ev s frame with
    | none => simp [hrun] at h
    | some x =>
      obtain ⟨s1, calls⟩ := x
      simp only [hrun] at h
      cases hruns : runCycles ev s1 frames with
      | none => simp [hruns] at h
      | some y =>
        obtain ⟨s2, rest⟩ := y
        simp only [hruns, Option.some.injEq, Prod.mk.injEq] at h
        obtain ⟨hdata, hsub, hren, hreceived⟩ := runCycle_data ev s s1 frame calls hrun
        have hrest := ih s1 s2 rest (by rw [hsub, hren]; exact Ne.symm hne) hruns
        rw [← h.2, List.map_cons, hreceived, hrest, hdata, hsub, hren]
        simp [staleFrames, Function.update_noteq (Ne.symm hne)]

/-- The first frame received is the instance the submit pointer starts on. -/
theorem staleFrames_zero (mine other : sDataRequiredToRenderAFrame F)
    (frames : List (sSubmittedFrame F)) (frame : sSubmittedFrame F)
    (h : frames[0]? = some frame) :
    (staleFrames mine other frames)[0]? = some (written mine frame) := by
  cases frames with
  | nil => simp at h
  | cons f fs =>
    simp only [List.getElem?_cons_zero, Option.some.injEq] at h
    subst h
    simp [staleFrames]

/-- The second frame received is the other instance. -/
theorem staleFrames_one (mine other : sDataRequiredToRenderAFrame F)
    (frames : List (sSubmittedFrame F)) (frame : sSubmittedFrame F)
    (h : frames[1]? = some frame) :
    (staleFrames mine other frames)[1]? = some (written other frame) := by
  cases frames with
  | nil => simp at h
  | cons f fs =>
    simp only [List.getElem?_cons_succ] at h
    simp only [staleFrames, List.getElem?_cons_succ]
    exact staleFrames_zero other _ fs frame h

/-- The frame received two cycles later is the same instance, written over. -/
theorem staleFrames_add_two (n : Nat) :
    ∀ (mine other : sDataRequiredToRenderAFrame F) (frames : List (sSubmittedFrame F))
      (frame : sSubmittedFrame F) (d : sDataRequiredToRenderAFrame F),
      frames[n + 2]? = some frame →
      (staleFrames mine other frames)[n]? = some d →
      (staleFrames mine other frames)[n + 2]? = some (written d frame) := by
  induction n with
  | zero =>
    intro mine other frames frame d h hd
    cases frames with
    | nil => simp at h
    | cons f fs =>
      simp only [staleFrames, List.getElem?_cons_zero, Option.some.injEq] at hd
      subst hd
      simp only [zero_add, List.getElem?_cons_succ] at h
      simp only [staleFrames, zero_add, List.getElem?_cons_succ]
      exact staleFrames_one other _ fs frame h
  | succ n ih =>
    intro mine other frames frame d h hd
    cases frames with
    | nil => simp at h
    | cons f fs =>
      have h' : fs[n + 2]? = some frame := by
        simpa [List.getElem?_cons_succ, add_right_comm] using h
      simp only [staleFrames, List.getElem?_cons_succ] at hd
      have := ih other (written mine f) fs frame d h' hd
      simpa [staleFrames, List.getElem?_cons_succ, add_right_comm] using this

/-- Every frame received is some earlier contents, written over. -/
theorem staleFrames_written (n : Nat) :
    ∀ (mine other : sDataRequiredToRenderAFrame F) (frames : List (sSubmittedFrame F))
      (frame : sSubmittedFrame F),
      frames[n]? = some frame →
      ∃ d, (staleFrames mine other frames)[n]? = some (written d frame) := by
  induction n with
  | zero =>
    intro mine other frames frame h
    exact ⟨mine, staleFrames_zero mine other frames frame h⟩
  | succ n ih =>
    intro mine other frames frame h
    cases frames with
    | nil => simp at h
    | cons f fs =>
      simp only [List.getElem?_cons_succ] at h
      simp only [staleFrames, List.getElem?_cons_succ]
      exact ih other _ fs frame h

/-- With the event primitive of the spec, every sequence of cycles runs once
the ready-event is up, as it is after `Initialize`. -/
theorem runCycles_specified (frames : List (sSubmittedFrame F)) :
    ∀ s : sStatic F cEvent,
      s.s_whenDataForANewFrameCanBeSubmittedFromApplicationThread.state = EventState.Signaled →
      ∃ s' logs, runCycles specified s frames = some (s', logs) := by
  induction frames with
  | nil =>
    intro s _
    exact ⟨s, [], rfl⟩
  | cons frame frames ih =>
    intro s hready
    obtain ⟨data, sub, ren, ⟨St, Ss⟩, ⟨Rt, Rs⟩, m1, m2, f1, f2⟩ := s
    simp only at hready
    subst hready
    have hrun : ∃ s1 calls, runCycle specified
        (⟨data, sub, ren, ⟨St, Ss⟩, ⟨Rt, EventState.Signaled⟩, m1, m2, f1, f2⟩ :
          sStatic F cEvent) frame =
          some (s1, calls) ∧
        s1.s_whenDataForANewFrameCanBeSubmittedFromApplicationThread.state =
          EventState.Signaled := by
      cases Rt <;> cases St <;>
        simp [runCycle, WaitUntilDataForANewFrameCanBeSubmitted, specified, WaitForEvent,
          cResult.IsSuccess, SignalThatAllDataForAFrameHasBeenSubmitted, cEvent.Signal,
          waitSucceeds, raiseSucceeds, RenderFrame, swapPointers, submitFrame_data]
    obtain ⟨s1, calls, hrun, hready1⟩ := hrun
    obtain ⟨s2, logs, hruns⟩ := ih s1 hready1
    exact ⟨s2, calls :: logs, by simp only [runCycles, hrun, hruns]⟩

/-- C10. `RenderFrame` never changes the contents of either frame-data
instance: whatever the operating system answers, the array at the return is
the array at entry. Consequently, over successive successful cycles from the
initialized state, the render pass of cycle `n` receives the instance as its
previous contents were overwritten by the members submitted in cycle `n`
(`written`): for `n = 0` and `n = 1` the previous contents are the initial
values of instances 0 and 1, and for `n + 2` they are the frame data received
in cycle `n`, whatever was submitted in cycle `n + 1`. In particular, when
cycle `n + 2` submits no back-buffer color, the color received in cycle `n + 2`
is the color submitted in cycle `n`, and likewise for the elapsed times. This
holds for every implementation of the event primitive. -/
theorem unsubmitted_members_are_stale (ev : cEventInterface E) :
    (∀ (s s' : sStatic F E) (osWait osSignal : cResult) (calls : List (Call F)),
      RenderFrame ev s osWait osSignal = some (s', calls) →
      s'.s_dataRequiredToRenderAFrame = s.s_dataRequiredToRenderAFrame) ∧
    ∀ (d0 d1 : sDataRequiredToRenderAFrame F) (e0 e1 : E) (os : sInitializationOutcomes),
      (Initialize ev (staticInitializer d0 d1 e0 e1) os).1.IsSuccess = true →
      ∀ (frames : List (sSubmittedFrame F)) (s' : sStatic F E) (logs : List (List (Call F))),
        runCycles ev (Initialize ev (staticInitializer d0 d1 e0 e1) os).2.1 frames =
          some (s', logs) →
        (∀ frame, frames[0]? = some frame →
          (logs.map frameDataReceived)[0]? = some [written d0 frame, written d0 frame]) ∧
        (∀ frame, frames[1]? = some frame →
          (logs.map frameDataReceived)[1]? = some [written d1 frame, written d1 frame]) ∧
        (∀ (n : Nat) frame d, frames[n + 2]? = some frame →
          (logs.map frameDataReceived)[n]? = some [d, d] →
          (logs.map frameDataReceived)[n + 2]? =
            some [written d frame, written d frame]) ∧
        (∀ (n : Nat) frame0 frame2 r g b a, frames[n]? = some frame0 →
          frame0.backBufferColor = some (r, g, b, a) →
          frames[n + 2]? = some frame2 → frame2.backBufferColor = none →
          ∃ d, (logs.map frameDataReceived)[n + 2]? = some [d, d] ∧
            d.backBufferColor = { R := r, G := g, B := b, A := a }) ∧
        (∀ (n : Nat) frame0 frame2 sys sim, frames[n]? = some frame0 →
          frame0.elapsedSecondCount = some (sys, sim) →
          frames[n + 2]? = some frame2 → frame2.elapsedSecondCount = none →
          ∃ d, (logs.map frameDataReceived)[n + 2]? = some [d, d] ∧
            d.constantData_frame =
              { g_elapsedSecondCount_systemTime := sys
                g_elapsedSecondCount_simulationTime := sim }) := by
  refine ⟨RenderFrame_data ev, ?_⟩
  intro d0 d1 e0 e1 os hinit frames s' logs hrun
  obtain ⟨hs, -⟩ := Initialize_success ev (staticInitializer d0 d1 e0 e1) os hinit
  have hlogs := runCycles_frameData ev frames
    (Initialize ev (staticInitializer d0 d1 e0 e1) os).2.1 s' logs
    (by rw [hs]; simp [staticInitializer]) hrun
  have hd0 : (Initialize ev (staticInitializer d0 d1 e0 e1) os).2.1.s_dataRequiredToRenderAFrame
      (Initialize ev (staticInitializer d0 d1 e0 e1)
        os).2.1.s_dataBeingSubmittedByApplicationThread = d0 := by
    rw [hs]
    simp [staticInitializer]
  have hd1 : (Initialize ev (staticInitializer d0 d1 e0 e1) os).2.1.s_dataRequiredToRenderAFrame
      (Initialize ev (staticInitializer d0 d1 e0 e1)
        os).2.1.s_dataBeingRenderedByRenderThread = d1 := by
    rw [hs]
    simp [staticInitializer]
  rw [hd0, hd1] at hlogs
  have hadd : ∀ (n : Nat) frame d, frames[n + 2]? = some frame →
      (logs.map frameDataReceived)[n]? = some [d, d] →
      (logs.map frameDataReceived)[n + 2]? = some [written d frame, written d frame] := by
    intro n frame d hframe hd
    rw [hlogs, List.getElem?_map] at hd ⊢
    cases hn : (staleFrames d0 d1 frames)[n]? with
    | none => simp [hn] at hd
    | some x =>
      simp only [hn, Option.map_some', Option.some.injEq, List.cons.injEq, and_true, and_self]
        at hd
      subst hd
      rw [staleFrames_add_two n d0 d1 frames frame x hframe hn]
      rfl
  have hwritten : ∀ (n : Nat) frame, frames[n]? = some frame →
      ∃ d, (logs.map frameDataReceived)[n]? = some [written d frame, written d frame] := by
    intro n frame hframe
    obtain ⟨d, hd⟩ := staleFrames_written n d0 d1 frames frame hframe
    exact ⟨d, by rw [hlogs, List.getElem?_map, hd]; rfl⟩
  refine ⟨?_, ?_, hadd, ?_, ?_⟩
  · intro frame hframe
    rw [hlogs, List.getElem?_map, staleFrames_zero d0 d1 frames frame hframe]
    rfl
  · intro frame hframe
    rw [hlogs, List.getElem?_map, staleFrames_one d0 d1 frames frame hframe]
    rfl
  · intro n frame0 frame2 r g b a h0 hc0 h2 hc2
    obtain ⟨d, hd⟩ := hwritten n frame0 h0
    refine ⟨_, hadd n frame2 _ h2 hd, ?_⟩
    simp [written, hc0, hc2]
  · intro n frame0 frame2 sys sim h0 hc0 h2 hc2
    obtain ⟨d, hd⟩ := hwritten n frame0 h0
    refine ⟨_, hadd n frame2 _ h2 hd, ?_⟩
    simp [written, hc0, hc2]

/-- Every step of either thread keeps the invariant of the handoff. -/
theorem stepThreads_HandoffInvariant (st st' : sThreads F cEvent) (step : Step F)
    (hinv : HandoffInvariant st) (h : stepThreads specified st step = some st') :
    HandoffInvariant st' := by
  obtain ⟨⟨data, sub, ren, ⟨St, Ss⟩, ⟨Rt, Rs⟩, m1, m2, f1, f2⟩, app, pc⟩ := st
  obtain ⟨hSt, hRt, hinv⟩ := hinv
  simp only at hSt hRt
  subst hSt hRt
  cases step with
  | application_WaitUntilDataForANewFrameCanBeSubmitted t os =>
    cases app <;> simp only [stepThreads, WaitUntilDataForANewFrameCanBeSubmitted] at h
    · by_cases ht : t = Constants.DontTimeOut <;>
      cases os <;> cases Ss <;> cases Rs <;> cases pc <;>
      simp [specified, WaitForEvent, cResult.IsSuccess, ht] at h <;>
      subst h <;>
      simp_all [HandoffInvariant, eRenderThread.isHandingOver]
    · simp at h
  | application_SubmitElapsedTime sys sim =>
    cases app <;> simp only [stepThreads] at h
    · simp at h
    · simp only [Option.some.injEq] at h
      subst h
      cases pc <;> simp_all [HandoffInvariant, eRenderThread.isHandingOver, SubmitElapsedTime]
  | application_SubmitBackBufferColor r g b a =>
    cases app <;> simp only [stepThreads] at h
    · simp at h
    · simp only [Option.some.injEq] at h
      subst h
      cases pc <;>
        simp_all [HandoffInvariant, eRenderThread.isHandingOver, SubmitBackBufferColor]
  | application_SignalThatAllDataForAFrameHasBeenSubmitted os =>
    cases app <;> simp only [stepThreads] at h
    · simp at h
    · simp only [Option.some.injEq] at h
      subst h
      cases os <;> cases pc <;>
        simp_all [HandoffInvariant, eRenderThread.isHandingOver,
          SignalThatAllDataForAFrameHasBeenSubmitted, specified, cEvent.Signal,
          cResult.IsSuccess]
  | render os =>
    simp only [stepThreads] at h
    cases pc
    case line141 =>
      cases f1 <;> cases Ss <;> cases Rs <;> cases app <;> simp [stepRender] at h <;>
        subst h <;> simp_all [HandoffInvariant, eRenderThread.isHandingOver]
    case line144 =>
      cases m1 <;> cases Ss <;> cases Rs <;> cases app <;> simp [stepRender] at h <;>
        subst h <;> simp_all [HandoffInvariant, eRenderThread.isHandingOver]
    case line147 =>
      cases f2 <;> cases Ss <;> cases Rs <;> cases app <;> simp [stepRender] at h <;>
        subst h <;> simp_all [HandoffInvariant, eRenderThread.isHandingOver]
    case line150 =>
      cases m2 <;> cases Ss <;> cases Rs <;> cases app <;> simp [stepRender] at h <;>
        subst h <;> simp_all [HandoffInvariant, eRenderThread.isHandingOver]
    all_goals
      cases os <;> cases Ss <;> cases Rs <;> cases app <;>
        simp [stepRender, specified, WaitForEvent, cEvent.Signal, cResult.IsSuccess,
          Constants.DontTimeOut] at h <;>
        subst h <;>
        simp_all [HandoffInvariant, eRenderThread.isHandingOver] <;>
        exact fun heq => hinv.2 heq.symm

/-- Every interleaving keeps the invariant of the handoff. -/
theorem runThreads_HandoffInvariant (steps : List (Step F)) :
    ∀ st st' : sThreads F cEvent, HandoffInvariant st →
      runThreads specified st steps = some st' → HandoffInvariant st' := by
  induction steps with
  | nil =>
    intro st st' hinv h
    simp only [runThreads, Option.some.injEq] at h
    exact h ▸ hinv
  | cons step steps ih =>
    intro st st' hinv h
    simp only [runThreads] at h
    cases hstep : stepThreads specified st step with
    | none => simp [hstep] at h
    | some st1 =>
      simp only [hstep] at h
      exact ih st1 st' (stepThreads_HandoffInvariant st st1 step hinv hstep) h

/-- When the effects and the meshes have been created, the
statement-by-statement steps of the render thread, run without the application
thread in between, end in the state `RenderFrame` returns. -/
theorem renderThread_runs_RenderFrame (ev : cEventInterface E) (s s' : sStatic F E)
    (app : eApplicationThread) (osWait osSignal : cResult) (calls : List (Call F))
    (hcreated : EffectsAndMeshesCreated s)
    (h : RenderFrame ev s osWait osSignal = some (s', calls)) :
    ∃ steps : List (Step F),
      (∀ step ∈ steps, ∃ os, step = Step.render os) ∧
      runThreads ev { statics := s, application := app, render := eRenderThread.line102 } steps =
        some { statics := s', application := app, render := eRenderThread.line102 } := by
  obtain ⟨hf1, hm1, hf2, hm2⟩ := hcreated
  simp only [RenderFrame] at h
  cases hw : ev.WaitForEvent s.s_whenAllDataHasBeenSubmittedFromApplicationThread
      Constants.DontTimeOut osWait with
  | none => simp [hw] at h
  | some x =>
    obtain ⟨result, waited⟩ := x
    simp only [hw] at h
    by_cases hr : result.IsSuccess = true
    · by_cases hsig : (ev.Signal s.s_whenDataForANewFrameCanBeSubmittedFromApplicationThread
          osSignal).1.IsSuccess = true
      · refine ⟨[Step.render osWait] ++ List.replicate 3 (Step.render osWait) ++
          [Step.render osSignal] ++ List.replicate 8 (Step.render osWait), ?_, ?_⟩
        · intro step hstep
          simp only [List.mem_append, List.mem_singleton] at hstep
          rcases hstep with ((hstep | hstep) | hstep) | hstep
          · exact ⟨_, hstep⟩
          · exact ⟨_, List.eq_of_mem_replicate hstep⟩
          · exact ⟨_, hstep⟩
          · exact ⟨_, List.eq_of_mem_replicate hstep⟩
        · simp [hr, hsig, swapPointers] at h
          obtain ⟨h, -⟩ := h
          subst h
          simp [List.replicate, runThreads, stepThreads, stepRender, hw, hr, hsig,
            hf1, hm1, hf2, hm2]
      · refine ⟨[Step.render osWait] ++ List.replicate 3 (Step.render osWait) ++
          [Step.render osSignal], ?_, ?_⟩
        · intro step hstep
          simp only [List.mem_append, List.mem_singleton] at hstep
          rcases hstep with (hstep | hstep) | hstep
          · exact ⟨_, hstep⟩
          · exact ⟨_, List.eq_of_mem_replicate hstep⟩
          · exact ⟨_, hstep⟩
        · simp [hr, hsig, swapPointers] at h
          obtain ⟨h, -⟩ := h
          subst h
          simp [List.replicate, runThreads, stepThreads, stepRender, hw, hr, hsig]
    · refine ⟨[Step.render osWait], ?_, ?_⟩
      · intro step hstep
        exact ⟨_, List.mem_singleton.1 hstep⟩
      · simp [hr] at h
        obtain ⟨h, -⟩ := h
        subst h
        simp [runThreads, stepThreads, stepRender, hw, hr]

/-- Only a `Submit` step changes frame data, and only in the instance the
submit pointer designates. -/
theorem stepThreads_data (ev : cEventInterface E) (st st' : sThreads F E) (step : Step F)
    (i : Fin 2) (h : stepThreads ev st step = some st')
    (hi : st'.statics.s_dataRequiredToRenderAFrame i ≠ st.statics.s_dataRequiredToRenderAFrame i) :
    st.application = eApplicationThread.submitting ∧
      i = st.statics.s_dataBeingSubmittedByApplicationThread := by
  obtain ⟨s, app, pc⟩ := st
  cases step with
  | application_WaitUntilDataForANewFrameCanBeSubmitted t os =>
    cases app <;> simp only [stepThreads, WaitUntilDataForANewFrameCanBeSubmitted] at h
    · cases hw : ev.WaitForEvent s.s_whenDataForANewFrameCanBeSubmittedFromApplicationThread
          t os with
      | none => simp [hw] at h
      | some x =>
        simp only [hw, Option.some.injEq] at h
        subst h
        exact absurd rfl hi
    · simp at h
  | application_SubmitElapsedTime sys sim =>
    cases app <;> simp only [stepThreads] at h
    · simp at h
    · simp only [Option.some.injEq] at h
      subst h
      refine ⟨rfl, ?_⟩
      by_contra hne
      exact hi (by simp [SubmitElapsedTime, Function.update_noteq hne])
  | application_SubmitBackBufferColor r g b a =>
    cases app <;> simp only [stepThreads] at h
    · simp at h
    · simp only [Option.some.injEq] at h
      subst h
      refine ⟨rfl, ?_⟩
      by_contra hne
      exact hi (by simp [SubmitBackBufferColor, Function.update_noteq hne])
  | application_SignalThatAllDataForAFrameHasBeenSubmitted os =>
    cases app <;> simp only [stepThreads] at h
    · simp at h
    · simp only [Option.some.injEq] at h
      subst h
      exact absurd rfl hi
  | render os =>
    simp only [stepThreads] at h
    cases pc <;> simp only [stepRender] at h
    case line102 =>
      cases hw : ev.WaitForEvent s.s_whenAllDataHasBeenSubmittedFromApplicationThread
          Constants.DontTimeOut os with
      | none => simp [hw] at h
      | some x =>
        simp only [hw, Option.some.injEq] at h
        subst h
        exact absurd rfl hi
    all_goals
      first
        | (simp only [Option.some.injEq] at h
           subst h
           exact absurd rfl hi)
        | (split at h
           · simp at h
           · simp only [Option.some.injEq] at h
             subst h
             exact absurd rfl hi)

/-- No step of either thread changes a pointer to an effect or a mesh. -/
theorem stepThreads_EffectsAndMeshesCreated (ev : cEventInterface E) (st st' : sThreads F E)
    (step : Step F) (h : stepThreads ev st step = some st') :
    st'.statics.s_effect_1 = st.statics.s_effect_1 ∧
    st'.statics.s_mesh_1 = st.statics.s_mesh_1 ∧
    st'.statics.s_effect_2 = st.statics.s_effect_2 ∧
    st'.statics.s_mesh_2 = st.statics.s_mesh_2 := by
  obtain ⟨s, app, pc⟩ := st
  cases step with
  | application_WaitUntilDataForANewFrameCanBeSubmitted t os =>
    cases app <;> simp only [stepThreads, WaitUntilDataForANewFrameCanBeSubmitted] at h
    · cases hw : ev.WaitForEvent s.s_whenDataForANewFrameCanBeSubmittedFromApplicationThread
          t os with
      | none => simp [hw] at h
      | some x =>
        simp only [hw, Option.some.injEq] at h
        subst h
        exact ⟨rfl, rfl, rfl, rfl⟩
    · simp at h
  | application_SubmitElapsedTime sys sim =>
    cases app <;> simp only [stepThreads] at h
    · simp at h
    · simp only [Option.some.injEq] at h
      subst h
      exact ⟨rfl, rfl, rfl, rfl⟩
  | application_SubmitBackBufferColor r g b a =>
    cases app <;> simp only [stepThreads] at h
    · simp at h
    · simp only [Option.some.injEq] at h
      subst h
      exact ⟨rfl, rfl, rfl, rfl⟩
  | application_SignalThatAllDataForAFrameHasBeenSubmitted os =>
    cases app <;> simp only [stepThreads] at h
    · simp at h
    · simp only [Option.some.injEq] at h
      subst h
      exact ⟨rfl, rfl, rfl, rfl⟩
  | render os =>
    simp only [stepThreads] at h
    cases pc <;> simp only [stepRender] at h
    case line102 =>
      cases hw : ev.WaitForEvent s.s_whenAllDataHasBeenSubmittedFromApplicationThread
          Constants.DontTimeOut os with
      | none => simp [hw] at h
      | some x =>
        simp only [hw, Option.some.injEq] at h
        subst h
        exact ⟨rfl, rfl, rfl, rfl⟩
    all_goals
      first
        | (simp only [Option.some.injEq] at h
           subst h
           exact ⟨rfl, rfl, rfl, rfl⟩)
        | (split at h
           · simp at h
           · simp only [Option.some.injEq] at h
             subst h
             exact ⟨rfl, rfl, rfl, rfl⟩)

/-- In every interleaving started after a successful `Initialize` the effects
and the meshes are created: the render thread never ends at a null pointer. -/
theorem runThreads_EffectsAndMeshesCreated (ev : cEventInterface E) (steps : List (Step F)) :
    ∀ st st' : sThreads F E, EffectsAndMeshesCreated st.statics →
      runThreads ev st steps = some st' → EffectsAndMeshesCreated st'.statics := by
  induction steps with
  | nil =>
    intro st st' hcreated h
    simp only [runThreads, Option.some.injEq] at h
    exact h ▸ hcreated
  | cons step steps ih =>
    intro st st' hcreated h
    simp only [runThreads] at h
    cases hstep : stepThreads ev st step with
    | none => simp [hstep] at h
    | some st1 =>
      simp only [hstep] at h
      obtain ⟨h1, h2, h3, h4⟩ := stepThreads_EffectsAndMeshesCreated ev st st1 step hstep
      obtain ⟨c1, c2, c3, c4⟩ := hcreated
      exact ih st1 st' ⟨h1.trans c1, h2.trans c2, h3.trans c3, h4.trans c4⟩ h

/-- When the effects and the meshes are created, the render thread can make
its next step everywhere after the wait of line 102. -/
theorem stepRender_of_created (ev : cEventInterface E) (st : sThreads F E) (os : cResult)
    (hcreated : EffectsAndMeshesCreated st.statics)
    (hline : st.render ≠ eRenderThread.line102) :
    (stepRender ev st os).isSome = true := by
  obtain ⟨s, app, pc⟩ := st
  obtain ⟨h1, h2, h3, h4⟩ := hcreated
  simp only at h1 h2 h3 h4
  cases pc <;> simp [stepRender, h1, h2, h3, h4] at hline ⊢

/-- C3. With the event primitive of the spec: in every state reached by an
interleaving of the steps of the application thread (which follows the
protocol: a successful wait on the ready-event, then writes, then one signal)
and of the render thread (which runs `RenderFrame` again and again), started
after a successful `Initialize`:
while the application thread is submitting, the render thread is not inside
the swap of the pointers and the submit pointer differs from the render
pointer; and a step that changes the contents of an instance is a step of the
submitting application thread on the instance the submit pointer designates,
which is not the instance the render pointer designates (the one the render
thread reads), made while the render thread is outside the swap. -/
theorem producer_and_consumer_exclusive (d0 d1 : sDataRequiredToRenderAFrame F) (e0 e1 : cEvent)
    (os : sInitializationOutcomes)
    (hinit : (Initialize specified (staticInitializer d0 d1 e0 e1) os).1.IsSuccess = true)
    (steps : List (Step F)) (st : sThreads F cEvent)
    (hrun : runThreads specified
      (startThreads (Initialize specified (staticInitializer d0 d1 e0 e1) os).2.1) steps =
        some st) :
    (st.application = eApplicationThread.submitting →
      st.render.isSwapping = false ∧
      st.statics.s_dataBeingSubmittedByApplicationThread ≠
        st.statics.s_dataBeingRenderedByRenderThread) ∧
    ∀ (step : Step F) (st' : sThreads F cEvent) (i : Fin 2),
      stepThreads specified st step = some st' →
      st'.statics.s_dataRequiredToRenderAFrame i ≠ st.statics.s_dataRequiredToRenderAFrame i →
      st.application = eApplicationThread.submitting ∧
      i = st.statics.s_dataBeingSubmittedByApplicationThread ∧
      i ≠ st.statics.s_dataBeingRenderedByRenderThread ∧
      st.render.isSwapping = false := by
  have hstart : HandoffInvariant
      (startThreads (Initialize specified (staticInitializer d0 d1 e0 e1) os).2.1) := by
    rw [Initialize_specified (staticInitializer d0 d1 e0 e1) os hinit]
    simp [HandoffInvariant, startThreads, staticInitializer, eRenderThread.isHandingOver]
  have hinv := runThreads_HandoffInvariant steps _ st hstart hrun
  have hexclusive : st.application = eApplicationThread.submitting →
      st.render.isSwapping = false ∧
      st.statics.s_dataBeingSubmittedByApplicationThread ≠
        st.statics.s_dataBeingRenderedByRenderThread := by
    intro happ
    obtain ⟨-, -, hwaiting, -, -, hpointers⟩ := hinv
    obtain ⟨s, app, pc⟩ := st
    simp only at happ
    subst happ
    cases pc <;>
      simp_all [eRenderThread.isHandingOver, eRenderThread.isSwapping]
  refine ⟨hexclusive, ?_⟩
  intro step st' i hstep hi
  obtain ⟨happ, hsub⟩ := stepThreads_data specified st st' step i hstep hi
  obtain ⟨hswap, hne⟩ := hexclusive happ
  exact ⟨happ, hsub, by rw [hsub]; exact hne, hswap⟩

/-! ## The theorems at concrete inputs -/

/-- Scenario A of the spec from the initialized state: times `(1, 1)` and color
`(1, 0, 0, 1)`. -/
theorem scenario_A_render_receives_submitted_witness :
    waitSucceeds specified exampleSubmitted cResult.Success = true ∧
    raiseSucceeds specified exampleSubmitted cResult.Success = true ∧
    ∃ (s' : sStatic ℚ cEvent) (calls : List (Call ℚ)),
      RenderFrame specified exampleSubmitted cResult.Success cResult.Success =
        some (s', calls) ∧
      (∃ pointer data, Call.ClearImageBuffer pointer data ∈ calls) ∧
      (∃ pointer data, Call.UpdateFrameConstantBuffer pointer data ∈ calls) ∧
      ∀ pointer data,
        Call.ClearImageBuffer pointer data ∈ calls ∨
          Call.UpdateFrameConstantBuffer pointer data ∈ calls →
        data.constantData_frame.g_elapsedSecondCount_systemTime = 1 ∧
        data.constantData_frame.g_elapsedSecondCount_simulationTime = 1 ∧
        data.backBufferColor.R = 1 ∧ data.backBufferColor.G = 0 ∧
        data.backBufferColor.B = 0 ∧ data.backBufferColor.A = 1 :=
  ⟨rfl, rfl, scenario_A_render_receives_submitted specified exampleInitialized 1 1 1 0 0 1
    cResult.Success cResult.Success cResult.Success rfl rfl⟩

/-- After scenario A the pointers are exchanged and still disjoint. -/
theorem handles_disjoint_invariant_witness :
    ∃ s' : sStatic ℚ cEvent,
      runOperations specified (staticInitializer exampleData exampleData
        { type := EventType.ResetAutomaticallyAfterBeingSignaled, state := EventState.Unsignaled }
        { type := EventType.ResetAutomaticallyAfterBeingSignaled, state := EventState.Signaled })
        exampleOperations = some s' ∧
      s'.s_dataBeingSubmittedByApplicationThread = 1 ∧
      s'.s_dataBeingRenderedByRenderThread = 0 ∧
      HandlesDisjoint s' :=
  ⟨_, rfl, rfl, rfl, handles_disjoint_invariant specified exampleData exampleData
    { type := EventType.ResetAutomaticallyAfterBeingSignaled, state := EventState.Unsignaled }
    { type := EventType.ResetAutomaticallyAfterBeingSignaled, state := EventState.Signaled }
    exampleOperations _ rfl⟩

/-- The eleven calls of `RenderFrame` in scenario A, where `Initialize` has
created the effects and the meshes. -/
theorem RenderFrame_effect_order_witness :
    EffectsAndMeshesCreated exampleSubmitted ∧
    waitSucceeds specified exampleSubmitted cResult.Success = true ∧
    raiseSucceeds specified exampleSubmitted cResult.Success = true ∧
    ∃ s' : sStatic ℚ cEvent,
      RenderFrame specified exampleSubmitted cResult.Success cResult.Success = some (s',
        [ Call.WaitForEvent eEvent.s_whenAllDataHasBeenSubmittedFromApplicationThread
            cResult.Success,
          Call.swap,
          Call.Signal eEvent.s_whenDataForANewFrameCanBeSubmittedFromApplicationThread
            cResult.Success,
          Call.ClearImageBuffer s'.s_dataBeingRenderedByRenderThread
            (s'.s_dataRequiredToRenderAFrame s'.s_dataBeingRenderedByRenderThread),
          Call.ClearDepthBuffer,
          Call.UpdateFrameConstantBuffer s'.s_dataBeingRenderedByRenderThread
            (s'.s_dataRequiredToRenderAFrame s'.s_dataBeingRenderedByRenderThread),
          Call.BindShadingData eEffect.s_effect_1,
          Call.DrawGeometry eMesh.s_mesh_1,
          Call.BindShadingData eEffect.s_effect_2,
          Call.DrawGeometry eMesh.s_mesh_2,
          Call.SwapFrontBuffer ]) ∧
      s'.s_dataBeingRenderedByRenderThread =
        exampleSubmitted.s_dataBeingSubmittedByApplicationThread ∧
      s'.s_dataBeingSubmittedByApplicationThread =
        exampleSubmitted.s_dataBeingRenderedByRenderThread :=
  ⟨⟨rfl, rfl, rfl, rfl⟩, rfl, rfl,
    RenderFrame_effect_order specified exampleSubmitted cResult.Success cResult.Success
      ⟨rfl, rfl, rfl, rfl⟩ rfl rfl⟩

/-- The wait answers error code 1: nothing is handed over. -/
theorem RenderFrame_fatal_on_failed_wait_witness :
    waitFails specified exampleSubmitted (cResult.Failure 1) = true ∧
    ∃ (s' : sStatic ℚ cEvent) (calls : List (Call ℚ)),
      RenderFrame specified exampleSubmitted (cResult.Failure 1) cResult.Success =
        some (s', calls) ∧
      s'.s_dataBeingSubmittedByApplicationThread = 0 ∧
      s'.s_dataBeingRenderedByRenderThread = 1 ∧
      Call.swap ∉ calls ∧
      ∀ c ∈ calls, c.isConsumerBackend = false :=
  ⟨rfl,
    match RenderFrame_fatal_on_failed_wait specified exampleSubmitted (cResult.Failure 1)
      cResult.Success rfl with
    | ⟨s', calls, _, hrun, hsub, hren, _, _, _, _, hswap, _, hbackend⟩ =>
      ⟨s', calls, hrun, hsub, hren, hswap, hbackend⟩⟩

/-- Scenario C of the spec: the raise answers error code 1 after the swap. -/
theorem RenderFrame_fatal_on_failed_release_witness :
    waitSucceeds specified exampleSubmitted cResult.Success = true ∧
    raiseSucceeds specified exampleSubmitted (cResult.Failure 1) = false ∧
    (∃ (s' : sStatic ℚ cEvent) (calls : List (Call ℚ)),
      RenderFrame specified exampleSubmitted cResult.Success (cResult.Failure 1) =
        some (s', calls) ∧
      s'.s_dataBeingRenderedByRenderThread = 0 ∧
      s'.s_dataBeingSubmittedByApplicationThread = 1 ∧
      ∀ c ∈ calls, c.isConsumerBackend = false) ∧
    ∃ (s' : sStatic ℚ cEvent) (calls : List (Call ℚ)),
      RenderFrame specified exampleSubmitted cResult.Success (cResult.Failure 1) =
        some (s', calls) ∧
      s'.s_whenDataForANewFrameCanBeSubmittedFromApplicationThread =
        exampleSubmitted.s_whenDataForANewFrameCanBeSubmittedFromApplicationThread :=
  ⟨rfl, rfl,
    match RenderFrame_fatal_on_failed_release.1 cEvent specified exampleSubmitted cResult.Success
      (cResult.Failure 1) rfl rfl with
    | ⟨s', calls, _, hrun, _, _, hren, hsub, _, _, hbackend⟩ =>
      ⟨s', calls, hrun, hren, hsub, hbackend⟩,
    match RenderFrame_fatal_on_failed_release.2 exampleSubmitted cResult.Success
      (cResult.Failure 1) rfl rfl with
    | ⟨s', calls, hrun, hready, _, _⟩ => ⟨s', calls, hrun, hready⟩⟩

/-- Submitting in the initialized state leaves instance 1 alone. -/
theorem producer_writes_confined_to_submit_slot_witness :
    exampleInitialized.s_dataBeingSubmittedByApplicationThread ≠
      exampleInitialized.s_dataBeingRenderedByRenderThread ∧
    (SubmitElapsedTime exampleInitialized 1 1).s_dataRequiredToRenderAFrame
        exampleInitialized.s_dataBeingRenderedByRenderThread =
      exampleInitialized.s_dataRequiredToRenderAFrame
        exampleInitialized.s_dataBeingRenderedByRenderThread ∧
    (SubmitBackBufferColor exampleInitialized 1 0 0 1).s_dataRequiredToRenderAFrame
        exampleInitialized.s_dataBeingRenderedByRenderThread =
      exampleInitialized.s_dataRequiredToRenderAFrame
        exampleInitialized.s_dataBeingRenderedByRenderThread ∧
    (SubmitElapsedTime exampleStatic 1 1).s_dataRequiredToRenderAFrame
        exampleStatic.s_dataBeingRenderedByRenderThread =
      exampleStatic.s_dataRequiredToRenderAFrame exampleStatic.s_dataBeingRenderedByRenderThread :=
  ⟨by decide,
    (producer_writes_confined_to_submit_slot specified exampleInitialized 1 1 1 0 0 1 0
      cResult.Success).1.2.2.1 (by decide),
    (producer_writes_confined_to_submit_slot specified exampleInitialized 1 1 1 0 0 1 0
      cResult.Success).2.1.2.2.1 (by decide),
    ((producer_writes_confined_to_submit_slot specified exampleStatic 1 1 1 0 0 1 0
      cResult.Success).2.2.2.2 exampleData exampleData exampleEvent exampleEvent [] rfl).1⟩

/-- Scenario B of the spec on the initialized state. -/
theorem scenario_B_second_wait_times_out_witness :
    (Initialize specified exampleStatic exampleOutcomes).1.IsSuccess = true ∧
    ∃ s1 s2 : sStatic ℚ cEvent,
      WaitUntilDataForANewFrameCanBeSubmitted specified exampleInitialized 0 cResult.Success =
        some (cResult.Success, s1) ∧
      WaitUntilDataForANewFrameCanBeSubmitted specified s1 0 cResult.Success =
        some (cResult.TimedOut, s2) :=
  ⟨rfl,
    match (scenario_B_second_wait_times_out exampleStatic exampleOutcomes rfl).2 with
    | ⟨s1, s2, h1, h2, _⟩ => ⟨s1, s2, h1, h2⟩⟩

/-- The construction of the submitted-event answers error code 7. -/
theorem Initialize_fails_when_signal_construction_fails_witness :
    (Initialize specified exampleStatic exampleSubmittedEventFails).1 = cResult.Failure 7 ∧
    (∀ c ∈ (Initialize specified exampleStatic exampleSubmittedEventFails).2.2,
      c.isAfterTheEvents = false) ∧
    ∀ type state result,
      InitCall.cEvent_Initialize eEvent.s_whenDataForANewFrameCanBeSubmittedFromApplicationThread
        type state result ∉ (Initialize specified exampleStatic exampleSubmittedEventFails).2.2 :=
  (Initialize_fails_when_signal_construction_fails specified exampleStatic
    exampleSubmittedEventFails).1
    EventType.ResetAutomaticallyAfterBeingSignaled EventState.Unsignaled (cResult.Failure 7)
    (by decide) rfl

/-- Red, green, then no color: the third frame is drawn on red. -/
theorem unsubmitted_members_are_stale_witness :
    (Initialize specified exampleStatic exampleOutcomes).1.IsSuccess = true ∧
    ∃ (s' : sStatic ℚ cEvent) (logs : List (List (Call ℚ))),
      runCycles specified exampleInitialized exampleFrames = some (s', logs) ∧
      ∃ d, (logs.map frameDataReceived)[2]? = some [d, d] ∧
        d.backBufferColor = { R := 1, G := 0, B := 0, A := 1 } := by
  refine ⟨rfl, _, _, rfl, ?_⟩
  exact ((unsubmitted_members_are_stale specified).2 exampleData exampleData exampleEvent
    exampleEvent exampleOutcomes rfl exampleFrames _ _ rfl).2.2.2.1 0 _ _ 1 0 0 1 rfl rfl rfl rfl

/-- The application thread submits its second frame while the render thread is
about to read the first. -/
theorem producer_and_consumer_exclusive_witness :
    (Initialize specified exampleStatic exampleOutcomes).1.IsSuccess = true ∧
    ∃ st : sThreads ℚ cEvent,
      runThreads specified (startThreads exampleInitialized) exampleSteps = some st ∧
      st.application = eApplicationThread.submitting ∧
      st.render.isReading = true ∧
      st.render.isSwapping = false ∧
      st.statics.s_dataBeingSubmittedByApplicationThread ≠
        st.statics.s_dataBeingRenderedByRenderThread :=
  ⟨rfl, _, rfl, rfl, rfl,
    (producer_and_consumer_exclusive exampleData exampleData exampleEvent exampleEvent
      exampleOutcomes rfl exampleSteps _ rfl).1 rfl⟩

end Graphics

end eae6320
